import Mathlib

/-!
Verification of the EC2 instance reconciliation engine
(`plugins/modules/ec2_instance.py` of the `amazon.aws` collection).

This file is a shallow embedding of the engine in Lean 4.  Pure helper
functions of the module become Lean functions; provider reads (describe
calls) are modelled by an explicit `Env` value holding the provider state;
provider mutations are modelled by explicit call traces or by returning
the resulting population; `module.fail_json` / raised exceptions become
the `EngineError` error type of `Except`.  Python truthiness (empty
string, empty list, zero, `None` are falsy) is modelled explicitly at
each place the source tests truthiness.  Machine integers of the source
are unbounded Python `int`s, so they are embedded as `Int`.
-/

/-- Errors surfaced by the engine: `fail_json` aborts, `TypeError` /
`ValueError` model uncaught Python exceptions, `ec2Error` models a raised
`AnsibleEC2Error`, `capacityError` the `InsufficientInstanceCapacity`
error code (carrying the instance type of the failed request),
`iamPropagationError` the transient `Invalid IAM Instance Profile ARN`
error, `otherAwsError` any other AWS error class. -/
inductive EngineError
  | failJson (msg : String)
  | typeError
  | valueError
  | ec2Error (msg : String)
  | capacityError (instanceType : String)
  | iamPropagationError (instanceType : String)
  | otherAwsError (instanceType : String)
deriving Repr, DecidableEq

/-- A Python value that may be an `int` or a `str`; used for the loosely
typed entries of the `volumes` option dictionaries, whose values the
source passes through `int(...)`. -/
inductive Val
  | intV (n : Int)
  | strV (s : String)
deriving Repr, DecidableEq

/-- Python `int(v)` on an int-or-string value; `none` models the
`ValueError` raised on a non-numeric string. -/
def pyToInt : Val → Option Int
  | .intV n => some n
  | .strV s => s.toInt?

/-- Python truthiness of an optional int-or-string value (`None`, `0` and
the empty string are falsy). -/
def truthyVal : Option Val → Bool
  | none => false
  | some (.intV n) => n ≠ 0
  | some (.strV s) => s ≠ ""

/-- Python truthiness of an optional string: `None` and `""` are falsy;
returns the string when truthy. -/
def truthyStr : Option String → Option String
  | some s => if s = "" then none else some s
  | none => none

/-- Python truthiness of an optional list (`None` and `[]` are falsy);
returns the list when truthy. -/
def truthyList {α : Type} : Option (List α) → Option (List α)
  | some l => if l.isEmpty then none else some l
  | none => none

/-- The `ebs` sub-dictionary of one entry of the `volumes` module option
(the keys read by `build_volume_spec` and the hibernation check). -/
structure EbsOpts where
  volume_size : Option Val := none
  iops : Option Val := none
  throughput : Option Val := none
  volume_type : Option String := none
  encrypted : Option Bool := none
deriving Repr, DecidableEq

/-- One entry of the `volumes` module option.  The final
`snake_dict_to_camel_dict` call of `build_volume_spec` only renames keys
to wire naming, so the embedding keeps the snake-case field names. -/
structure VolumeOpts where
  device_name : Option String := none
  ebs : Option EbsOpts := none
deriving Repr, DecidableEq

/-- `int(...)` coercion of one optional `ebs` entry, as done by the
`for int_value in ["volume_size", "iops"]` loop of `build_volume_spec`;
a non-numeric string raises `ValueError`. -/
def coerceEbsField : Option Val → Except EngineError (Option Val)
  | none => .ok none
  | some v =>
    match pyToInt v with
    | some n => .ok (some (.intV n))
    | none => .error .valueError

/-- `build_volume_spec` applied to a single volume dictionary (the body
of its `for volume in volumes` loop): coerces `volume_size` and `iops`
to int, then for `gp3` volumes replaces a falsy `iops` by `3000` and
fills `throughput` with `int(...)` of the given value or `125` when the
key is absent. -/
def build_volume_one (v : VolumeOpts) : Except EngineError VolumeOpts := do
  match v.ebs with
  | none => return v
  | some e0 => do
    let vs ← coerceEbsField e0.volume_size
    let io ← coerceEbsField e0.iops
    let e1 : EbsOpts := { e0 with volume_size := vs, iops := io }
    if e1.volume_type = some "gp3" then do
      let e2 : EbsOpts :=
        if truthyVal e1.iops then e1 else { e1 with iops := some (.intV 3000) }
      match e2.throughput with
      | some t => do
        let tn ← coerceEbsField (some t)
        return { v with ebs := some { e2 with throughput := tn } }
      | none =>
        return { v with ebs := some { e2 with throughput := some (.intV 125) } }
    else
      return { v with ebs := some e1 }

/-- `build_volume_spec(params)`: `params.get("volumes") or []`, each
volume processed in place; key camelization is a pure renaming and is
not modelled. -/
def build_volume_spec (volumes : Option (List VolumeOpts)) :
    Except EngineError (List VolumeOpts) :=
  (volumes.getD []).mapM build_volume_one

/-- The `image` module option (`id` / `ramdisk` / `kernel`). -/
structure ImageParam where
  id : Option String := none
  ramdisk : Option String := none
  kernel : Option String := none
deriving Repr, DecidableEq

/-- The `launch_template` module option. -/
structure LaunchTemplateParam where
  id : Option String := none
  name : Option String := none
  version : Option String := none
deriving Repr, DecidableEq

/-- One entry of a `private_ip_addresses` list of a network interface
(the dictionary form with required `private_ip_address`). -/
structure PrivateIpEntry where
  private_ip_address : String
  primary : Option Bool := none
deriving Repr, DecidableEq

/-- One entry of the `network_interfaces` module option. -/
structure NetworkIfaceParam where
  assign_public_ip : Option Bool := none
  private_ip_address : Option String := none
  ipv6_addresses : Option (List String) := none
  description : Option String := none
  private_ip_addresses : Option (List PrivateIpEntry) := none
  subnet_id : Option String := none
  delete_on_termination : Bool := true
  device_index : Int := 0
  groups : Option (List String) := none
deriving Repr, DecidableEq

/-- The deprecated free-form `network` module option: its `interfaces`
list (of interface ids), its `source_dest_check` key, and the
interface-style keys of the same dictionary, which the source reuses as
a network-interface specification when `interfaces` is not given. -/
structure NetworkParam where
  interfaces : Option (List String) := none
  source_dest_check : Option Bool := none
  iface : NetworkIfaceParam := {}
deriving Repr, DecidableEq

/-- One entry of the `network_interfaces_ids` module option. -/
structure EniIdParam where
  id : String
  device_index : Int := 0
deriving Repr, DecidableEq

/-- The `instance_ids` module option; `build_filters` distinguishes a
bare string from a list with `isinstance`. -/
inductive InstanceIdsParam
  | strIds (s : String)
  | listIds (l : List String)
deriving Repr, DecidableEq

/-- A value of one filter entry: `build_network_filters` stores a bare
string for the default-subnet case and lists everywhere else, so both
shapes are kept. -/
inductive FilterVal
  | str (s : String)
  | list (l : List String)
deriving Repr, DecidableEq

/-- A filter dictionary in insertion order (Python `dict`; the engine
never inserts a key twice). -/
abbrev FiltersT : Type := List (String × FilterVal)

/-- Dictionary lookup on a filter dictionary. -/
def getFilter (fs : FiltersT) (k : String) : Option FilterVal :=
  (fs.find? (fun kv => kv.1 = k)).map (fun kv => kv.2)

/-- The module parameters (`module.params`) restricted to the keys the
claims exercise.  Fields default to the argument-spec defaults
(`security_groups=[]`, `instance_ids=[]`, `wait=True`,
`hibernation_options=False`, everything else `None`). -/
structure Params where
  state : String := "present"
  wait : Bool := true
  count : Option Int := none
  exact_count : Option Int := none
  image : Option ImageParam := none
  image_id : Option String := none
  instance_type : Option String := none
  alternate_instance_types : Option (List String) := none
  ebs_optimized : Option Bool := none
  vpc_subnet_id : Option String := none
  availability_zone : Option String := none
  security_groups : List String := []
  security_group : Option String := none
  iam_instance_profile : Option String := none
  name : Option String := none
  tags : Option (List (String × String)) := none
  filters : Option FiltersT := none
  launch_template : Option LaunchTemplateParam := none
  termination_protection : Option Bool := none
  hibernation_options : Bool := false
  instance_ids : InstanceIdsParam := .listIds []
  network : Option NetworkParam := none
  volumes : Option (List VolumeOpts) := none
  network_interfaces_ids : Option (List EniIdParam) := none
  network_interfaces : Option (List NetworkIfaceParam) := none
  source_dest_check : Option Bool := none
deriving Repr, DecidableEq

/-- A VPC as returned by `describe_vpcs`. -/
structure Vpc where
  vpcId : String
  isDefault : Bool
deriving Repr, DecidableEq

/-- A subnet as returned by `describe_subnets` (the attributes the
engine filters and sorts on). -/
structure Subnet where
  subnetId : String
  availabilityZone : String
  vpcId : String
  state : String
  defaultForAz : Bool
deriving Repr, DecidableEq

/-- The provider read model: the VPC and subnet tables behind
`describe_vpcs` / `describe_subnets`, the security-group name-to-id
resolution behind `discover_security_groups` /
`get_ec2_security_group_ids_from_names` (second argument: the subnet id
used to locate the parent VPC), and the IAM ARN resolution behind
`determine_iam_arn_from_name`. -/
structure Env where
  vpcs : List Vpc := []
  subnets : List Subnet := []
  resolveGroups : List String → Option String → List String := fun gs _ => gs
  iamArn : String → String := fun n => n

/-- Lexicographic order on lists of characters: Python string comparison
(`sorted(..., key=lambda s: s["AvailabilityZone"])` compares strings by
code points). -/
def lexLe : List Char → List Char → Bool
  | [], _ => true
  | _ :: _, [] => false
  | a :: as, b :: bs =>
    if a < b then true
    else if b < a then false
    else lexLe as bs

/-- Python `<=` on strings. -/
def strLe (a b : String) : Bool := lexLe a.data b.data

/-- The sort key of `get_default_subnet`: compare subnets by
availability-zone name. -/
def subnetAzLe (a b : Subnet) : Prop :=
  strLe a.availabilityZone b.availabilityZone = true

instance : DecidableRel subnetAzLe := fun a b =>
  instDecidableEqBool (strLe a.availabilityZone b.availabilityZone) true

/-- `get_default_vpc`: `describe_vpcs` filtered on `isDefault=true`,
first result or `None`. -/
def get_default_vpc (env : Env) : Option Vpc :=
  (env.vpcs.filter (fun v => v.isDefault)).head?

/-- The subnets returned by the `describe_subnets` call of
`get_default_subnet`: filters `vpc-id`, `state=available`,
`default-for-az=true`. -/
def default_subnet_candidates (env : Env) (vpc : Vpc) : List Subnet :=
  env.subnets.filter
    (fun s => s.vpcId = vpc.vpcId ∧ s.state = "available" ∧ s.defaultForAz)

/-- `get_default_subnet(client, module, vpc, availability_zone)`: when an
availability zone is given and present among the candidates, return that
zone's subnet (the `dict(...)` comprehension keeps the last subnet per
zone, hence `find?` on the reversed list); otherwise the candidate with
the lexicographically first availability-zone name; `None` when there
are no candidates. -/
def get_default_subnet (env : Env) (vpc : Vpc) (availability_zone : Option String) :
    Option Subnet :=
  let subnets := default_subnet_candidates env vpc
  match availability_zone.bind
      (fun z => subnets.reverse.find? (fun s => s.availabilityZone = z)) with
  | some s => some s
  | none => (subnets.insertionSort subnetAzLe).head?

/-- `describe_default_subnet(client, module, use_availability_zone)`:
default VPC lookup (`fail_json` when there is none), then
`get_default_subnet(...)["SubnetId"]`; subscripting the `None` returned
when no default subnet exists raises a `TypeError` in the source. -/
def describe_default_subnet (env : Env) (p : Params) (use_availability_zone : Bool) :
    Except EngineError String :=
  match get_default_vpc env with
  | none => .error (.failJson "No default subnet could be found")
  | some vpc =>
    let az := if use_availability_zone then p.availability_zone else none
    match get_default_subnet env vpc az with
    | some s => .ok s.subnetId
    | none => .error .typeError

/-- `build_network_filters`: `subnet-id` from `vpc_subnet_id`, else the
network-interface-id filter from `network_interfaces_ids` or
`network.interfaces`, else the default subnet (stored as a bare string,
as in the source). -/
def build_network_filters (env : Env) (p : Params) : Except EngineError FiltersT := do
  let niIds : List String :=
    match truthyList (p.network_interfaces_ids.map (fun l => l.map (fun e => e.id))) with
    | some l => l
    | none =>
      match truthyList (p.network.bind (fun n => n.interfaces)) with
      | some l => l
      | none => []
  match truthyStr p.vpc_subnet_id with
  | some v => return [("subnet-id", .list [v])]
  | none =>
    if niIds.isEmpty then do
      let s ← describe_default_subnet env p true
      return [("subnet-id", .str s)]
    else
      return [("network-interface.network-interface-id", .list niIds)]

/-- The `instance-state-name` values `build_filters` always attaches:
all states except `shutting-down` and `terminated`. -/
def instance_state_names : List String := ["pending", "running", "stopping", "stopped"]

/-- The `tag:Name` filter block of `build_filters`: the `name`
parameter, else a truthy `Name` entry of `tags`. -/
def name_filter_entries (p : Params) : FiltersT :=
  match truthyStr p.name with
  | some n => [("tag:Name", .list [n])]
  | none =>
    match truthyList p.tags with
    | some tags =>
      match truthyStr ((tags.find? (fun kv => kv.1 = "Name")).map (fun kv => kv.2)) with
      | some n => [("tag:Name", .list [n])]
      | none => []
    | none => []

/-- The `image-id` filter block of `build_filters`: `image_id`, else a
truthy `image.id`. -/
def image_filter_entries (p : Params) : FiltersT :=
  match truthyStr p.image_id with
  | some i => [("image-id", .list [i])]
  | none =>
    match truthyStr (p.image.bind (fun img => img.id)) with
    | some i => [("image-id", .list [i])]
    | none => []

/-- `build_filters`: identity filters from `instance_ids` (string or
non-empty list), otherwise network/name/image filters; the
`instance-state-name` filter is appended whenever any filter key was
produced.  Note that the declared `state` parameter is never consulted
here. -/
def build_filters (env : Env) (p : Params) : Except EngineError FiltersT := do
  match p.instance_ids with
  | .strIds s =>
    return [("instance-id", .list [s]), ("instance-state-name", .list instance_state_names)]
  | .listIds l =>
    if l.isEmpty then do
      let base : FiltersT ←
        if p.launch_template.isNone then build_network_filters env p else pure []
      let filters : FiltersT := base ++ name_filter_entries p ++ image_filter_entries p
      if filters.isEmpty then
        return []
      else
        return filters ++ [("instance-state-name", .list instance_state_names)]
    else
      return [("instance-id", .list l), ("instance-state-name", .list instance_state_names)]

/-- The filter set one reconciliation pass queries with (`main`): the
caller-supplied `filters` verbatim, or the engine-built `build_filters`
result; the declared `state` does not alter the built filters. -/
def filters_for_pass (env : Env) (p : Params) : Except EngineError FiltersT :=
  match p.filters with
  | some f => .ok f
  | none => build_filters env p

/-- `validate_assign_public_ip(module)`: fails when the combined number
of declared interfaces (`network_interfaces` plus
`network_interfaces_ids`) exceeds one and any `network_interfaces` entry
has a truthy `assign_public_ip`. -/
def validate_assign_public_ip (p : Params) : Except EngineError Unit :=
  let network_interfaces := p.network_interfaces.getD []
  let network_interfaces_ids := p.network_interfaces_ids.getD []
  if network_interfaces.length + network_interfaces_ids.length > 1 ∧
      network_interfaces.any (fun i => i.assign_public_ip = some true) then
    .error (.failJson "assign_public_ip cannot be set to true with multiple network interfaces")
  else
    .ok ()

/-- `validate_network_params(module, nb_instances)`: public-IP check,
at most one primary private IP per interface, and no per-instance
addressing options when launching more than one instance. -/
def validate_network_params (p : Params) (nb_instances : Int) : Except EngineError Unit := do
  validate_assign_public_ip p
  match truthyList p.network_interfaces with
  | none => return ()
  | some nis => do
    if nis.any (fun i =>
        ((i.private_ip_addresses.getD []).filter (fun a => a.primary = some true)).length > 1) then
      .error (.failJson "Only one primary private IP address can be specified")
    if nb_instances > 1 then
      if nis.any (fun i => (truthyStr i.private_ip_address).isSome) then
        .error (.failJson "private_ip_address cannot be specified when launching more than one instance")
      else if nis.any (fun i => (truthyList i.private_ip_addresses).isSome) then
        .error (.failJson "private_ip_addresses cannot be specified when launching more than one instance")
      else if nis.any (fun i => (truthyList i.ipv6_addresses).isSome) then
        .error (.failJson "ipv6_addresses cannot be specified when launching more than one instance")
      else return ()
    else return ()

/-- One entry of a built `PrivateIpAddresses` wire list. -/
structure PrivateIpSpec where
  PrivateIpAddress : String
  Primary : Option Bool := none
deriving Repr, DecidableEq

/-- A built network-interface wire specification (the keys
`ansible_to_boto3_eni_specification` and `build_network_spec` set;
absent keys are `none` / `[]`). -/
structure EniSpec where
  DeviceIndex : Int := 0
  AssociatePublicIpAddress : Option Bool := none
  SubnetId : Option String := none
  NetworkInterfaceId : Option String := none
  Ipv6Addresses : List String := []
  PrivateIpAddress : Option String := none
  PrivateIpAddresses : List PrivateIpSpec := []
  DeleteOnTermination : Option Bool := none
  Groups : Option (List String) := none
  Description : Option String := none
deriving Repr, DecidableEq

/-- The `security_groups or security_group` chain passed by
`build_network_spec` into the interface builder (a falsy empty list or
empty string falls through). -/
def effective_module_groups (p : Params) : Option (List String) :=
  match truthyList (some p.security_groups) with
  | some l => some l
  | none =>
    match truthyStr p.security_group with
    | some s => some [s]
    | none => none

/-- `ansible_to_boto3_eni_specification(client, module, interface,
subnet_id, groups)`: subnet precedence is the interface's `subnet_id`,
then the passed `subnet_id`, then the account default subnet; groups
precedence is the interface's `groups`, then the passed groups, resolved
to ids through the provider. -/
def ansible_to_boto3_eni_specification (env : Env) (p : Params)
    (interface : NetworkIfaceParam) (subnet_id : Option String)
    (groups : Option (List String)) : Except EngineError EniSpec := do
  let sub : String ←
    match truthyStr interface.subnet_id with
    | some s => pure s
    | none =>
      match truthyStr subnet_id with
      | some s => pure s
      | none => describe_default_subnet env p true
  let ipv6 : List String := (truthyList interface.ipv6_addresses).getD []
  let privList : List PrivateIpSpec :=
    ((truthyList interface.private_ip_addresses).getD []).map
      (fun a => { PrivateIpAddress := a.private_ip_address, Primary := a.primary })
  let interface_groups : Option (List String) :=
    match truthyList interface.groups with
    | some l => some l
    | none => groups
  return {
    DeviceIndex := interface.device_index
    AssociatePublicIpAddress :=
      if interface.assign_public_ip = some true then some true else none
    SubnetId := some sub
    Ipv6Addresses := ipv6
    PrivateIpAddress := truthyStr interface.private_ip_address
    PrivateIpAddresses := privList
    DeleteOnTermination := some interface.delete_on_termination
    Groups := interface_groups.map (fun gs => env.resolveGroups gs (some sub))
    Description := interface.description
  }

/-- `build_network_spec(client, module)`: entries from
`network_interfaces_ids`, then either the `network`-as-interface /
`network_interfaces` specifications, or a single default interface when
no network option and no launch template is given, or the id list of
`network.interfaces`. -/
def build_network_spec (env : Env) (p : Params) : Except EngineError (List EniSpec) := do
  let fromIds : List EniSpec :=
    (p.network_interfaces_ids.getD []).map
      (fun e => { DeviceIndex := e.device_index, NetworkInterfaceId := some e.id })
  let groups := effective_module_groups p
  let networkTruthy := p.network.isSome
  let networkIfaces : Option (List String) := p.network.bind (fun n => truthyList n.interfaces)
  let nis : Option (List NetworkIfaceParam) := truthyList p.network_interfaces
  if (networkTruthy ∧ networkIfaces.isNone) ∨ nis.isSome then do
    let network_interfaces : List NetworkIfaceParam :=
      if networkTruthy ∧ networkIfaces.isNone then
        [(p.network.getD {}).iface]
      else
        nis.getD []
    let built ← network_interfaces.mapM
      (fun inty => ansible_to_boto3_eni_specification env p inty p.vpc_subnet_id groups)
    return fromIds ++ built
  else if ¬ networkTruthy ∧ (p.network_interfaces_ids.getD []).isEmpty
      ∧ p.launch_template.isNone then do
    let built ← ansible_to_boto3_eni_specification env p {} p.vpc_subnet_id groups
    return fromIds ++ [built]
  else if networkTruthy then
    return fromIds ++ (networkIfaces.getD []).enum.map
      (fun iv => { DeviceIndex := (iv.1 : Int), NetworkInterfaceId := some iv.2 })
  else
    return fromIds

/-- The launch-template wire entry of a creation request. -/
structure LaunchTemplateSpec where
  LaunchTemplateId : Option String := none
  LaunchTemplateName : Option String := none
  Version : Option String := none
deriving Repr, DecidableEq

/-- The fields of `build_top_level_options` that the claims exercise
(image and launch-template selection with their validations, and the
hibernation check, which is its only other failure path).  The purely
pass-through option fields (key name, user data, monitoring, placement,
CPU options, credit specification, shutdown behavior, metadata options,
license specifications) are independent of every claim and are not
carried. -/
structure TopLevelOpts where
  ImageId : Option String := none
  RamdiskId : Option String := none
  KernelId : Option String := none
  LaunchTemplate : Option LaunchTemplateSpec := none
  EbsOptimized : Option Bool := none
  DisableApiTermination : Option Bool := none
  HibernationConfigured : Bool := false
deriving Repr, DecidableEq

/-- `build_top_level_options(module)` (the claim-relevant fields):
image id from `image_id` or `image`, failing without image and launch
template; launch template requiring an id or a name; `ebs_optimized` /
`termination_protection` forwarded on explicit (`is not None`) values;
hibernation requiring every volume to be encrypted. -/
def build_top_level_options (p : Params) : Except EngineError TopLevelOpts := do
  let (imageId, ramdisk, kernel) :=
    match truthyStr p.image_id with
    | some i => (some i, none, none)
    | none =>
      match p.image with
      | some img => (img.id, truthyStr img.ramdisk, truthyStr img.kernel)
      | none => (none, none, none)
  if (truthyStr imageId).isNone ∧ p.launch_template.isNone then
    .error (.failJson "You must include an image_id or image.id parameter, or use a launch_template")
  let lt : Option LaunchTemplateSpec ←
    match p.launch_template with
    | none => pure none
    | some t => do
      if (truthyStr t.id).isNone ∧ (truthyStr t.name).isNone then
        .error (.failJson "Either launch_template.name or launch_template.id parameters are required")
      pure (some { LaunchTemplateId := t.id, LaunchTemplateName := t.name, Version := t.version })
  let hib : Bool ←
    if p.hibernation_options ∧ (truthyList p.volumes).isSome then
      if (p.volumes.getD []).all
          (fun vol => vol.ebs.isSome ∧ (vol.ebs.getD {}).encrypted = some true) then
        pure true
      else
        .error (.failJson "Hibernation prerequisites not satisfied")
    else
      pure false
  return {
    ImageId := imageId
    RamdiskId := ramdisk
    KernelId := kernel
    LaunchTemplate := lt
    EbsOptimized := p.ebs_optimized
    DisableApiTermination := p.termination_protection
    HibernationConfigured := hib
  }

/-- `build_instance_tags(params)`: the `tags` dictionary with the `Name`
tag injected from the `name` parameter (dictionary update: an existing
`Name` entry is replaced). -/
def build_instance_tags (p : Params) : List (String × String) :=
  let tags := p.tags.getD []
  match p.name with
  | some n => (tags.filter (fun kv => kv.1 ≠ "Name")) ++ [("Name", n)]
  | none => tags

/-- A built creation request (`RunInstances` payload) restricted to the
fields the claims exercise; `ClientToken` is the idempotency token
generated once per pass. -/
structure RunSpec where
  ClientToken : String
  ImageId : Option String := none
  RamdiskId : Option String := none
  KernelId : Option String := none
  LaunchTemplate : Option LaunchTemplateSpec := none
  EbsOptimized : Option Bool := none
  DisableApiTermination : Option Bool := none
  HibernationConfigured : Bool := false
  MinCount : Int := 0
  MaxCount : Int := 0
  NetworkInterfaces : List EniSpec := []
  BlockDeviceMappings : List VolumeOpts := []
  TagSpecifications : List (String × String) := []
  IamInstanceProfileArn : Option String := none
  InstanceType : Option String := none
deriving Repr, DecidableEq

/-- The instance count of `build_run_instance_spec`: `count or 1`,
overridden by `exact_count - current_count` when `exact_count` is
truthy. -/
def run_instance_count (p : Params) (current_count : Int) : Int :=
  let nb0 : Int :=
    match p.count with
    | some c => if c = 0 then 1 else c
    | none => 1
  match p.exact_count with
  | some e => if e = 0 then nb0 else e - current_count
  | none => nb0

/-- `build_run_instance_spec(client, module, current_count)`.
`freshToken` is the `uuid.uuid4().hex` drawn exactly once, at the top
(`spec = dict(ClientToken=uuid.uuid4().hex)`).  The instance count is
`count or 1`, overridden by `exact_count - current_count` when
`exact_count` is truthy, and lands in both `MinCount` and `MaxCount`;
network parameters are validated before any creation payload exists. -/
def build_run_instance_spec (freshToken : String) (env : Env) (p : Params)
    (current_count : Int) : Except EngineError RunSpec := do
  let tlo ← build_top_level_options p
  let nb_instances : Int := run_instance_count p current_count
  validate_network_params p nb_instances
  let network_specs ← build_network_spec env p
  let volume_specs ← build_volume_spec p.volumes
  let tag_spec := build_instance_tags p
  if (truthyStr p.instance_type).isNone ∧ p.launch_template.isNone then
    .error (.ec2Error "At least one of instance_type and launch_template must be passed")
  return {
    ClientToken := freshToken
    ImageId := tlo.ImageId
    RamdiskId := tlo.RamdiskId
    KernelId := tlo.KernelId
    LaunchTemplate := tlo.LaunchTemplate
    EbsOptimized := tlo.EbsOptimized
    DisableApiTermination := tlo.DisableApiTermination
    HibernationConfigured := tlo.HibernationConfigured
    MinCount := nb_instances
    MaxCount := nb_instances
    NetworkInterfaces := network_specs
    BlockDeviceMappings := volume_specs
    TagSpecifications := tag_spec
    IamInstanceProfileArn := (truthyStr p.iam_instance_profile).map env.iamArn
    InstanceType := truthyStr p.instance_type
  }

/-- The outcome the provider gives one physical `run_ec2_instances`
call: success, the `InsufficientInstanceCapacity` error code, the
`Invalid IAM Instance Profile ARN` message (authorization propagation),
or any other error class. -/
inductive CallOutcome
  | ok
  | capacity
  | iamProfile
  | fatal
deriving Repr, DecidableEq

/-- One physical `run_ec2_instances` call as recorded by the retry
controller trace: the idempotency token it carried, the instance type of
its payload, and the provider outcome it met. -/
structure ProviderCall where
  clientToken : String
  instanceType : String
  result : CallOutcome
deriving Repr, DecidableEq

/-- The result of `run_instances`: a launch with the instance type
actually used (`usedAlternate` records `i > 0`, a launch by a
non-primary candidate), or a raised error. -/
inductive RunOutcome
  | launched (usedType : String) (usedAlternate : Bool)
  | raised (e : EngineError)
deriving Repr, DecidableEq

/-- The `for i, instance_type in enumerate(instance_types_to_try)` loop
of `run_instances`.  `behavior k` is the provider outcome of the `k`-th
physical call of this pass (the IAM-propagation retry is a second
physical call).  On capacity exhaustion the loop continues while
candidates remain and re-raises on the last; on an IAM-propagation error
it retries the same candidate once; any other error is re-raised
immediately. -/
def run_instances_loop (behavior : Nat → CallOutcome) (tok : String) :
    List String → Nat → Nat → List ProviderCall → List ProviderCall × RunOutcome
  | [], _, _, trace =>
    -- only reachable with an empty candidate list: `raise last_error`
    -- with `last_error = None` is a `TypeError` in Python
    (trace, .raised .typeError)
  | t :: rest, i, k, trace =>
    let c1 : ProviderCall := { clientToken := tok, instanceType := t, result := behavior k }
    match behavior k with
    | .ok => (trace ++ [c1], .launched t (i > 0))
    | .capacity =>
      if rest.isEmpty then (trace ++ [c1], .raised (.capacityError t))
      else run_instances_loop behavior tok rest (i + 1) (k + 1) (trace ++ [c1])
    | .fatal => (trace ++ [c1], .raised (.otherAwsError t))
    | .iamProfile =>
      let c2 : ProviderCall := { clientToken := tok, instanceType := t, result := behavior (k + 1) }
      match behavior (k + 1) with
      | .ok => (trace ++ [c1, c2], .launched t (i > 0))
      | .capacity =>
        if rest.isEmpty then (trace ++ [c1, c2], .raised (.capacityError t))
        else run_instances_loop behavior tok rest (i + 1) (k + 2) (trace ++ [c1, c2])
      | .iamProfile => (trace ++ [c1, c2], .raised (.iamPropagationError t))
      | .fatal => (trace ++ [c1, c2], .raised (.otherAwsError t))

/-- `run_instances(client, module, **instance_spec)`: candidate list is
the primary `InstanceType` of the spec followed by
`alternate_instance_types`; every physical call reuses the same spec
(same `ClientToken`) with only `InstanceType` replaced.  On a launch by
a non-primary candidate, `module.params["instance_type"]` is overwritten
with the type actually used.  Returns the call trace, the outcome, and
the (possibly updated) module parameters. -/
def run_instances (behavior : Nat → CallOutcome) (p : Params) (spec : RunSpec) :
    List ProviderCall × RunOutcome × Params :=
  let primary := spec.InstanceType
  let alternates := p.alternate_instance_types.getD []
  let instance_types_to_try := (match primary with | some t => [t] | none => []) ++ alternates
  match run_instances_loop behavior spec.ClientToken instance_types_to_try 0 0 [] with
  | (trace, .launched t alt) =>
    (trace, .launched t alt, if alt then { p with instance_type := some t } else p)
  | (trace, o) => (trace, o, p)

/-- The number of successful creation calls in a trace (each successful
`run_ec2_instances` call is the one that creates instances). -/
def createdCalls (trace : List ProviderCall) : Nat :=
  (trace.filter (fun c => c.result = .ok)).length

/-- An EC2 instance lifecycle state (`instance["State"]["Name"]`). -/
inductive InstState
  | pending
  | running
  | stopping
  | stopped
  | shuttingDown
  | terminated
deriving Repr, DecidableEq

/-- A live instance snapshot: identity, lifecycle state, creation
timestamp (`LaunchTime`), and the per-attribute values returned by
`describe_instance_attribute` (`ebsOptimized`, `disableApiTermination`,
`instanceType`, `groupSet`) together with the snapshot fields the diff
engine reads (`SourceDestCheck`, the number of attached network
interfaces). -/
structure LiveInst where
  instanceId : String
  state : InstState := .running
  launchTime : Nat := 0
  ebsOptimized : Bool := false
  disableApiTermination : Bool := false
  instanceType : String := ""
  groupSet : List String := []
  sourceDestCheck : Bool := true
  networkInterfaceCount : Nat := 1
deriving Repr, DecidableEq

/-- One entry of the change list produced by
`diff_instance_and_params`: the modify-attribute payload, keyed by the
wire attribute it changes. -/
inductive ChangeEntry
  | ebsOptimized (instanceId : String) (value : Bool)
  | disableApiTermination (instanceId : String) (value : Bool)
  | instanceType (instanceId : String) (value : String)
  | groups (instanceId : String) (value : List String)
  | sourceDestCheck (instanceId : String) (value : Bool)
deriving Repr, DecidableEq

/-- The mutable attribute allow-list driving the diff engine. -/
inductive MutAttr
  | ebsOpt
  | termProt
  | instType
  | secGroups
  | srcDest
deriving Repr, DecidableEq

/-- The attribute a change entry modifies. -/
def ChangeEntry.attr : ChangeEntry → MutAttr
  | .ebsOptimized .. => .ebsOpt
  | .disableApiTermination .. => .termProt
  | .instanceType .. => .instType
  | .groups .. => .secGroups
  | .sourceDestCheck .. => .srcDest

/-- Python `set(a) == set(b)` on id lists. -/
def sameSet (a b : List String) : Bool :=
  a.all (fun x => b.contains x) ∧ b.all (fun x => a.contains x)

/-- The body of the `param_mappings` loop of `diff_instance_and_params`
for one mapping: skip a parameter that is `None` or whose instance key
is in `skip`, read the live attribute, and emit an entry on mismatch. -/
def mapper_change {α : Type} [DecidableEq α] (param : Option α) (instance_key : String)
    (skip : List String) (live : α) (entry : α → ChangeEntry) : List ChangeEntry :=
  match param with
  | none => []
  | some v =>
    if instance_key ∈ skip then []
    else if live ≠ v then [entry v] else []

/-- The `param_mappings` loop of `diff_instance_and_params` over
`ebs_optimized`, `termination_protection`, `instance_type`. -/
def diff_mapper_changes (p : Params) (inst : LiveInst) (skip : List String) :
    List ChangeEntry :=
  mapper_change p.ebs_optimized "EbsOptimized" skip inst.ebsOptimized
    (fun v => .ebsOptimized inst.instanceId v) ++
  mapper_change p.termination_protection "DisableApiTermination" skip
    inst.disableApiTermination (fun v => .disableApiTermination inst.instanceId v) ++
  mapper_change p.instance_type "InstanceType" skip inst.instanceType
    (fun v => .instanceType inst.instanceId v)

/-- The network-interface list the diff engine works on: the
`network_interfaces` parameter, falling back to `[network]` when the
deprecated `network` option is given without `interfaces`. -/
def effective_network_interfaces (p : Params) : List NetworkIfaceParam :=
  match truthyList p.network_interfaces with
  | some nis => nis
  | none =>
    match p.network with
    | some n => if (truthyList n.interfaces).isNone then [n.iface] else []
    | none => []

/-- The subnet id the group diff resolves security-group names against:
the first interface's `subnet_id`, else `vpc_subnet_id`, else (only when
no interface parameter is given) the account default subnet without
availability-zone preference. -/
def groups_subnet (env : Env) (p : Params) (nis : List NetworkIfaceParam) :
    Except EngineError (Option String) :=
  match nis.head? with
  | some first =>
    match truthyStr first.subnet_id with
    | some s => .ok (some s)
    | none => .ok (truthyStr p.vpc_subnet_id)
  | none =>
    match truthyStr p.vpc_subnet_id with
    | some s => .ok (some s)
    | none => (describe_default_subnet env p false).map some

/-- The `groups = groups or security_groups or security_group` chain of
the diff engine (first interface's groups first). -/
def declared_groups (p : Params) (nis : List NetworkIfaceParam) : Option (List String) :=
  match truthyList (nis.head?.bind (fun i => i.groups)) with
  | some l => some l
  | none => effective_module_groups p

/-- The security-group block of `diff_instance_and_params`: entered when
interfaces or groups are declared; skipped with a warning when the
declaration or the live instance has more than one interface; otherwise
the declared groups are resolved and compared as sets with the live
`groupSet`. -/
def groups_changes (env : Env) (p : Params) (inst : LiveInst) :
    Except EngineError (List ChangeEntry) := do
  let nis := effective_network_interfaces p
  if nis.isEmpty ∧ p.security_groups.isEmpty ∧ (truthyStr p.security_group).isNone then
    return []
  if nis.length > 1 ∨ inst.networkInterfaceCount > 1 then
    return []
  let sub ← groups_subnet env p nis
  match declared_groups p nis with
  | none => return []
  | some gs =>
    let resolved := env.resolveGroups gs sub
    if ¬ sameSet inst.groupSet resolved then
      return [.groups inst.instanceId resolved]
    else
      return []

/-- The effective `source_dest_check` declaration: the top-level
parameter, falling back to `network.source_dest_check` (already a bool
once coerced). -/
def effective_source_dest_check (p : Params) : Option Bool :=
  match p.source_dest_check with
  | some b => some b
  | none => p.network.bind (fun n => n.source_dest_check)

/-- The `source_dest_check` block of `diff_instance_and_params`. -/
def source_dest_changes (p : Params) (inst : LiveInst) : List ChangeEntry :=
  match effective_source_dest_check p with
  | none => []
  | some b => if inst.sourceDestCheck ≠ b then [.sourceDestCheck inst.instanceId b] else []

/-- `diff_instance_and_params(client, module, instance, skip)`: the
allow-listed attribute blocks in source order. -/
def diff_instance_and_params (env : Env) (p : Params) (inst : LiveInst)
    (skip : List String) : Except EngineError (List ChangeEntry) := do
  let mapped := diff_mapper_changes p inst skip
  let grouped ← groups_changes env p inst
  return mapped ++ grouped ++ source_dest_changes p inst

/-- The declared module states (`state` choices). -/
inductive ModuleState
  | present
  | started
  | running
  | stopped
  | restarted
  | rebooted
  | terminated
  | absent
deriving Repr, DecidableEq

/-- The `state_to_boto3_waiter` map of `await_instances`. -/
def state_to_boto3_waiter : ModuleState → String
  | .present => "instance_exists"
  | .started => "instance_status_ok"
  | .running => "instance_running"
  | .stopped => "instance_stopped"
  | .restarted => "instance_status_ok"
  | .rebooted => "instance_running"
  | .terminated => "instance_terminated"
  | .absent => "instance_terminated"

/-- The `ec2_instance_states` map of `change_instance_state`: declared
module state to the EC2 state driven toward. -/
def ec2_instance_states : ModuleState → InstState
  | .present => .running
  | .started => .running
  | .running => .running
  | .stopped => .stopped
  | .restarted => .running
  | .rebooted => .running
  | .terminated => .terminated
  | .absent => .terminated

/-- One provider API call issued by the lifecycle state machine. -/
inductive ApiCall
  | waitFor (waiter : String) (ids : List String)
  | terminateCall (ids : List String)
  | stopCall (ids : List String)
  | startCall (ids : List String)
deriving Repr, DecidableEq

/-- `await_instances(client, module, ids, desired_module_state,
force_wait)`: no call when the user asked not to wait (unless forced) or
in check mode; otherwise one waiter call of the mapped waiter type. -/
def await_instances (wait check_mode : Bool) (ids : List String)
    (desired_module_state : ModuleState) (force_wait : Bool) : List ApiCall :=
  if ¬ wait ∧ ¬ force_wait then []
  else if check_mode then []
  else [.waitFor (state_to_boto3_waiter desired_module_state) ids]

/-- The body of the `for inst in instances` loop of
`change_instance_state` for one instance (error-free provider): the
calls issued, the ids added to `changed`, and the ids added to
`unchanged`.  A terminate of a `stopping` instance first awaits
`stopped`, of a `pending` instance first awaits `running`; a stop of a
`pending` instance first awaits `running` and is a no-op for
`stopping`/`stopped`; a start is a no-op for `pending`/`running` and
first awaits `stopped` when `stopping`. -/
def change_one_instance (wait check_mode : Bool) (desired_ec2_state : InstState)
    (inst : LiveInst) : List ApiCall × List String × List String :=
  match desired_ec2_state with
  | .terminated =>
    let pre : List ApiCall :=
      if inst.state = .stopping then
        await_instances wait check_mode [inst.instanceId] .stopped true
      else if inst.state = .pending then
        await_instances wait check_mode [inst.instanceId] .running true
      else []
    if check_mode then (pre, [inst.instanceId], [])
    else (pre ++ [.terminateCall [inst.instanceId]], [inst.instanceId], [])
  | .stopped =>
    if inst.state = .pending then
      let pre := await_instances wait check_mode [inst.instanceId] .running true
      if check_mode then (pre, [inst.instanceId], [])
      else (pre ++ [.stopCall [inst.instanceId]], [inst.instanceId], [])
    else if inst.state = .stopping ∨ inst.state = .stopped then
      ([], [], [inst.instanceId])
    else if check_mode then ([], [inst.instanceId], [])
    else ([.stopCall [inst.instanceId]], [inst.instanceId], [])
  | .running =>
    if inst.state = .pending ∨ inst.state = .running then
      ([], [], [inst.instanceId])
    else
      let pre : List ApiCall :=
        if inst.state = .stopping then
          await_instances wait check_mode [inst.instanceId] .stopped true
        else []
      if check_mode then (pre, [inst.instanceId], [])
      else (pre ++ [.startCall [inst.instanceId]], [inst.instanceId], [])
  | _ => ([], [], [])

/-- `change_instance_state(client, module, filters, desired_module_state)`
over an already-matched instance list (error-free provider): issues the
per-instance transitions in matched order, then a single batch wait for
`changed + unchanged` when anything changed.  Returns the full call
trace, the changed ids and the unchanged ids. -/
def change_instance_state (wait check_mode : Bool) (instances : List LiveInst)
    (desired_module_state : ModuleState) : List ApiCall × List String × List String :=
  let desired := ec2_instance_states desired_module_state
  let per := instances.map (change_one_instance wait check_mode desired)
  let calls := (per.map (fun r => r.1)).flatten
  let changed := (per.map (fun r => r.2.1)).flatten
  let unchanged := (per.map (fun r => r.2.2)).flatten
  let finalCalls :=
    if ¬ changed.isEmpty then
      await_instances wait check_mode (changed ++ unchanged) desired_module_state false
    else []
  (calls ++ finalCalls, changed, unchanged)

/-- The `key=lambda inst: inst["LaunchTime"]` comparison of the shrink
path of `enforce_count`. -/
def launchTimeLe (a b : LiveInst) : Prop := a.launchTime ≤ b.launchTime

instance : DecidableRel launchTimeLe := fun a b =>
  Nat.decLe a.launchTime b.launchTime

/-- `sorted(existing_matches, key=lambda inst: inst["LaunchTime"])`:
stable sort by creation timestamp, oldest first. -/
def sorted_by_launch_time (l : List LiveInst) : List LiveInst :=
  l.insertionSort launchTimeLe

/-- The population-level result of `enforce_count`: the ids passed to
`terminate_instances`, the full matched id list, the matched population
after the pass, and the `MinCount` / `MaxCount` of the creation request
when the population grew. -/
structure EnforceOutcome where
  terminated_ids : List String := []
  instance_ids : List String := []
  population : List LiveInst := []
  minCount : Int := 0
  maxCount : Int := 0
deriving Repr, DecidableEq

/-- `enforce_count(client, module, existing_matches, ...)` at population
level, outside check mode and with an error-free provider.  `fresh` is
the batch the provider creates for the grow path (`run_instances`
creates `MaxCount` instances on success).  On `current == exact` the
population is untouched; on grow, `ensure_present` builds the creation
request with `build_run_instance_spec(..., current_count)`; on shrink,
the matched members are sorted by `LaunchTime` ascending and the first
`current - exact` ids are terminated.  Terminated members leave the
matched population because `build_filters` excludes the destroyed
states; the trailing `handle_existing` refresh changes attributes only,
never membership. -/
def enforce_count (freshToken : String) (env : Env) (p : Params)
    (existing_matches : List LiveInst) (fresh : List LiveInst) :
    Except EngineError EnforceOutcome := do
  match p.exact_count with
  | none =>
    -- `enforce_count` is only entered when `exact_count` is truthy;
    -- arithmetic on a `None` count would be a `TypeError`
    .error .typeError
  | some exact_count =>
    let current_count : Int := existing_matches.length
    if current_count = exact_count then
      return {
        instance_ids := existing_matches.map (fun i => i.instanceId)
        population := existing_matches
      }
    else if current_count < exact_count then do
      let spec ← build_run_instance_spec freshToken env p current_count
      return {
        instance_ids := (existing_matches ++ fresh).map (fun i => i.instanceId)
        population := existing_matches ++ fresh
        minCount := spec.MinCount
        maxCount := spec.MaxCount
      }
    else
      let to_terminate := (current_count - exact_count).toNat
      let sorted := sorted_by_launch_time existing_matches
      let all_instance_ids := sorted.map (fun i => i.instanceId)
      let terminate_ids := all_instance_ids.take to_terminate
      return {
        terminated_ids := terminate_ids
        instance_ids := all_instance_ids
        population := existing_matches.filter
          (fun i => !(terminate_ids.contains i.instanceId))
      }

/-! ## Theorems -/

/-- C10 counterexample: a `gp3` volume with a declared `iops` of `0`
(present, not absent) is not passed through with integer coercion as the
claim states: the source tests Python truthiness (`if not
volume["ebs"].get("iops")`), so the present `0` is replaced by `3000`. -/
theorem build_volume_spec_gp3_zero_iops_counterexample :
    build_volume_spec
        (some [{ ebs := some { iops := some (.intV 0), volume_type := some "gp3" } }]) =
      .ok [{ ebs := some { iops := some (.intV 3000), throughput := some (.intV 125),
                           volume_type := some "gp3" } }] ∧
    (some (Val.intV 3000) : Option Val) ≠ some (.intV 0) := by
  exact ⟨rfl, by decide⟩

/-- C10 (amended): for every `gp3` volume, the built block-device entry
fills `iops` with `3000` when it is absent or its coerced value is falsy
(`0`), keeps the coerced integer value otherwise, and fills `throughput`
with `125` when the key is absent or the coerced integer otherwise;
volumes of other types pass through with only integer coercion of
`volume_size` and `iops` (in particular `throughput` is untouched). -/
theorem build_volume_spec_gp3_defaults
    (vol : VolumeOpts) (e e' : EbsOpts) (w : VolumeOpts)
    (hvol : vol.ebs = some e)
    (hw : build_volume_one vol = .ok w)
    (hw' : w.ebs = some e') :
    (e.volume_type = some "gp3" →
      ((e.iops = none → e'.iops = some (.intV 3000)) ∧
       (∀ x n, e.iops = some x → pyToInt x = some n → n ≠ 0 →
         e'.iops = some (.intV n)) ∧
       (∀ x n, e.iops = some x → pyToInt x = some n → n = 0 →
         e'.iops = some (.intV 3000)) ∧
       (e.throughput = none → e'.throughput = some (.intV 125)) ∧
       (∀ x n, e.throughput = some x → pyToInt x = some n →
         e'.throughput = some (.intV n)) ∧
       (∀ x n, e.volume_size = some x → pyToInt x = some n →
         e'.volume_size = some (.intV n)))) ∧
    (e.volume_type ≠ some "gp3" →
      (e'.throughput = e.throughput ∧
       (e.iops = none → e'.iops = none) ∧
       (∀ x n, e.iops = some x → pyToInt x = some n → e'.iops = some (.intV n)) ∧
       (e.volume_size = none → e'.volume_size = none) ∧
       (∀ x n, e.volume_size = some x → pyToInt x = some n →
         e'.volume_size = some (.intV n)))) := by
  cases hvs : coerceEbsField e.volume_size with
  | error err =>
    simp [build_volume_one, hvol, hvs, bind, Except.bind] at hw
  | ok vs =>
  cases hio : coerceEbsField e.iops with
  | error err =>
    simp [build_volume_one, hvol, hvs, hio, bind, Except.bind] at hw
  | ok io =>
  by_cases hgp3 : e.volume_type = some "gp3"
  · refine ⟨fun _ => ?_, fun h => absurd hgp3 h⟩
    cases hth : e.throughput with
    | none =>
      simp [build_volume_one, hvol, hvs, hio, hgp3, hth, bind, Except.bind, pure,
        Except.pure, apply_ite EbsOpts.throughput, apply_ite EbsOpts.iops,
        apply_ite EbsOpts.volume_size, apply_ite EbsOpts.volume_type,
        apply_ite EbsOpts.encrypted] at hw
      rw [← hw] at hw'
      simp at hw'
      refine ⟨fun hie => ?_, fun x n hx hn hn0 => ?_, fun x n hx hn hn0 => ?_,
        fun _ => ?_, fun x n hx => ?_, fun x n hx hn => ?_⟩
      · rw [hie] at hio
        simp [coerceEbsField] at hio
        subst hio
        simp [← hw', truthyVal]
      · rw [hx] at hio
        simp [coerceEbsField, hn] at hio
        subst hio
        simp [← hw', truthyVal, hn0]
      · rw [hx] at hio
        simp [coerceEbsField, hn] at hio
        subst hio
        simp [← hw', truthyVal, hn0]
      · simp [← hw']
      · exact fun _ => Option.noConfusion hx
      · rw [hx] at hvs
        simp [coerceEbsField, hn] at hvs
        subst hvs
        simp [← hw']
    | some t =>
      cases htn : coerceEbsField (some t) with
      | error err =>
        simp [build_volume_one, hvol, hvs, hio, hgp3, hth, htn, bind, Except.bind,
          pure, Except.pure, Except.map, apply_ite EbsOpts.throughput,
          apply_ite EbsOpts.iops, apply_ite EbsOpts.volume_size,
          apply_ite EbsOpts.volume_type, apply_ite EbsOpts.encrypted] at hw
      | ok tn =>
        simp [build_volume_one, hvol, hvs, hio, hgp3, hth, htn, bind, Except.bind,
          pure, Except.pure, Except.map, apply_ite EbsOpts.throughput,
          apply_ite EbsOpts.iops, apply_ite EbsOpts.volume_size,
          apply_ite EbsOpts.volume_type, apply_ite EbsOpts.encrypted] at hw
        rw [← hw] at hw'
        simp at hw'
        refine ⟨fun hie => ?_, fun x n hx hn hn0 => ?_, fun x n hx hn hn0 => ?_,
          fun hthn => ?_, fun x n hx hn => ?_, fun x n hx hn => ?_⟩
        · rw [hie] at hio
          simp [coerceEbsField] at hio
          subst hio
          simp [← hw', truthyVal]
        · rw [hx] at hio
          simp [coerceEbsField, hn] at hio
          subst hio
          simp [← hw', truthyVal, hn0]
        · rw [hx] at hio
          simp [coerceEbsField, hn] at hio
          subst hio
          simp [← hw', truthyVal, hn0]
        · exact Option.noConfusion hthn
        · rw [Option.some.injEq] at hx
          subst hx
          simp [coerceEbsField, hn] at htn
          subst htn
          simp [← hw']
        · rw [hx] at hvs
          simp [coerceEbsField, hn] at hvs
          subst hvs
          simp [← hw']
  · refine ⟨fun h => absurd h hgp3, fun _ => ?_⟩
    simp [build_volume_one, hvol, hvs, hio, hgp3, bind, Except.bind,
      pure, Except.pure] at hw
    rw [← hw] at hw'
    simp at hw'
    refine ⟨by simp [← hw'], fun hie => ?_, fun x n hx hn => ?_,
      fun hvse => ?_, fun x n hx hn => ?_⟩
    · rw [hie] at hio
      simp [coerceEbsField] at hio
      subst hio
      simp [← hw']
    · rw [hx] at hio
      simp [coerceEbsField, hn] at hio
      subst hio
      simp [← hw']
    · rw [hvse] at hvs
      simp [coerceEbsField] at hvs
      subst hvs
      simp [← hw']
    · rw [hx] at hvs
      simp [coerceEbsField, hn] at hvs
      subst hvs
      simp [← hw']

/-- C10 witness: the amended theorem applied to a concrete `gp3` volume
with no `iops` and no `throughput` declared. -/
theorem build_volume_spec_gp3_defaults_witness :
    ({ ebs := some { iops := some (.intV 3000), throughput := some (.intV 125),
                     volume_type := some "gp3" } } : VolumeOpts).ebs =
        some { iops := some (.intV 3000), throughput := some (.intV 125),
               volume_type := some "gp3" } ∧
    ({ iops := some (Val.intV 3000), throughput := some (Val.intV 125),
       volume_type := some "gp3" } : EbsOpts).iops = some (.intV 3000) := by
  have h := build_volume_spec_gp3_defaults
    { ebs := some { volume_type := some "gp3" } }
    { volume_type := some "gp3" }
    { iops := some (.intV 3000), throughput := some (.intV 125), volume_type := some "gp3" }
    { ebs := some { iops := some (.intV 3000), throughput := some (.intV 125),
                    volume_type := some "gp3" } }
    rfl rfl rfl
  exact ⟨rfl, ((h.1 rfl).1 rfl)⟩

/-- C9 counterexample: two declared interfaces of which exactly one
requests public-IP assignment already fail validation, while the claim
says a declaration with at most one requester passes. -/
theorem validate_assign_public_ip_counterexample :
    ((([{ assign_public_ip := some true }, {}] : List NetworkIfaceParam).filter
        (fun i => i.assign_public_ip = some true)).length = 1) ∧
    validate_assign_public_ip
        { network_interfaces := some [{ assign_public_ip := some true }, {}] } =
      .error (.failJson
        "assign_public_ip cannot be set to true with multiple network interfaces") := by
  constructor
  · rfl
  · rfl

/-- C9 (amended): when more than one network interface is declared
(counting `network_interfaces` and `network_interfaces_ids` together),
the declaration passes public-IP validation precisely when no interface
requests public-IP assignment; with at most one declared interface it
always passes; and a creation request is only ever built when this
validation passed, so the failure precedes any creation call. -/
theorem validate_assign_public_ip_characterization (p : Params) :
    ((p.network_interfaces.getD []).length + (p.network_interfaces_ids.getD []).length ≤ 1 →
      validate_assign_public_ip p = .ok ()) ∧
    ((∀ i ∈ p.network_interfaces.getD [], i.assign_public_ip ≠ some true) →
      validate_assign_public_ip p = .ok ()) ∧
    ((p.network_interfaces.getD []).length + (p.network_interfaces_ids.getD []).length > 1 →
      (∃ i ∈ p.network_interfaces.getD [], i.assign_public_ip = some true) →
      validate_assign_public_ip p =
        .error (.failJson
          "assign_public_ip cannot be set to true with multiple network interfaces")) ∧
    (∀ tok env cc spec, build_run_instance_spec tok env p cc = .ok spec →
      validate_assign_public_ip p = .ok ()) := by
  refine ⟨fun hle => ?_, fun hnone => ?_, fun hgt hex => ?_, fun tok env cc spec hb => ?_⟩
  · simp only [validate_assign_public_ip]
    rw [if_neg]
    rintro ⟨h1, -⟩
    omega
  · simp only [validate_assign_public_ip]
    rw [if_neg]
    rintro ⟨-, h2⟩
    rw [List.any_eq_true] at h2
    obtain ⟨i, hi, hreq⟩ := h2
    exact hnone i hi (by simpa using hreq)
  · simp only [validate_assign_public_ip]
    rw [if_pos]
    refine ⟨hgt, ?_⟩
    rw [List.any_eq_true]
    obtain ⟨i, hi, hreq⟩ := hex
    exact ⟨i, hi, by simpa using hreq⟩
  · cases hv : validate_assign_public_ip p with
    | ok u => rfl
    | error err =>
      exfalso
      cases htlo : build_top_level_options p with
      | error e2 => simp [build_run_instance_spec, htlo, bind, Except.bind] at hb
      | ok tlo =>
        simp [build_run_instance_spec, htlo, validate_network_params, hv,
          bind, Except.bind] at hb

/-- C9 witness: the amended characterization applied to a single
interface requesting a public IP (passes) and to the two-interface
declaration of the counterexample input shape with no requester
(passes). -/
theorem validate_assign_public_ip_characterization_witness :
    validate_assign_public_ip { network_interfaces := some [{ assign_public_ip := some true }] } =
      .ok () ∧
    validate_assign_public_ip { network_interfaces := some [{}, {}] } = .ok () := by
  constructor
  · exact (validate_assign_public_ip_characterization
      { network_interfaces := some [{ assign_public_ip := some true }] }).1 (by decide)
  · exact (validate_assign_public_ip_characterization
      { network_interfaces := some [{}, {}] }).2.1 (by decide)

/-- Every key `build_network_filters` produces is a network key. -/
theorem build_network_filters_keys (env : Env) (p : Params) (f : FiltersT)
    (h : build_network_filters env p = .ok f) :
    ∀ kv ∈ f, kv.1 = "subnet-id" ∨ kv.1 = "network-interface.network-interface-id" := by
  simp only [build_network_filters] at h
  cases hts : truthyStr p.vpc_subnet_id with
  | some v =>
    simp [hts, pure, Except.pure] at h
    subst h
    intro kv hkv
    simp at hkv
    simp [hkv]
  | none =>
    simp only [hts] at h
    split at h
    · cases hds : describe_default_subnet env p true with
      | error e => simp [hds, bind, Except.bind] at h
      | ok s =>
        simp [hds, bind, Except.bind, pure, Except.pure] at h
        subst h
        intro kv hkv
        simp at hkv
        simp [hkv]
    · simp [pure, Except.pure] at h
      subst h
      intro kv hkv
      simp at hkv
      simp [hkv]

/-- Every key `name_filter_entries` produces is `tag:Name`. -/
theorem name_filter_entries_keys (p : Params) :
    ∀ kv ∈ name_filter_entries p, kv.1 = "tag:Name" := by
  intro kv hkv
  simp only [name_filter_entries] at hkv
  split at hkv
  · simp at hkv; simp [hkv]
  · split at hkv
    · split at hkv
      · simp at hkv; simp [hkv]
      · simp at hkv
    · simp at hkv

/-- Every key `image_filter_entries` produces is `image-id`. -/
theorem image_filter_entries_keys (p : Params) :
    ∀ kv ∈ image_filter_entries p, kv.1 = "image-id" := by
  intro kv hkv
  simp only [image_filter_entries] at hkv
  split at hkv
  · simp at hkv; simp [hkv]
  · split at hkv
    · simp at hkv; simp [hkv]
    · simp at hkv

/-- C6 (amended): every non-empty filter set built by `build_filters`
carries the `instance-state-name` filter restricting matches to
`pending` / `running` / `stopping` / `stopped` — irrespective of the
declared target state, including the destroyed targets `terminated` /
`absent`. -/
theorem build_filters_always_excludes_destroyed (env : Env) (p : Params) (fs : FiltersT)
    (h : build_filters env p = .ok fs) (hne : fs ≠ []) :
    getFilter fs "instance-state-name" = some (.list instance_state_names) := by
  cases hids : p.instance_ids with
  | strIds s =>
    simp [build_filters, hids, pure, Except.pure] at h
    subst h
    simp [getFilter, List.find?]
  | listIds l =>
    cases l with
    | cons a as =>
      simp [build_filters, hids, pure, Except.pure] at h
      subst h
      simp [getFilter, List.find?]
    | nil =>
      have step : ∀ base : FiltersT,
          (∀ kv ∈ base, kv.1 = "subnet-id" ∨
            kv.1 = "network-interface.network-interface-id") →
          (if (base ++ name_filter_entries p ++ image_filter_entries p).isEmpty then
              (Except.ok [] : Except EngineError FiltersT)
            else
              Except.ok (base ++ name_filter_entries p ++ image_filter_entries p ++
                [("instance-state-name", .list instance_state_names)])) = .ok fs →
          getFilter fs "instance-state-name" = some (.list instance_state_names) := by
        intro base hbk hfs
        split at hfs
        · simp at hfs
          exact absurd hfs hne
        · simp only [Except.ok.injEq] at hfs
          subst hfs
          have hB : List.find? (fun kv => kv.1 = "instance-state-name") base = none := by
            rw [List.find?_eq_none]
            intro kv hkv
            rcases hbk kv hkv with h1 | h1 <;> simp [h1]
          have hN : List.find? (fun kv => kv.1 = "instance-state-name")
              (name_filter_entries p) = none := by
            rw [List.find?_eq_none]
            intro kv hkv
            have := name_filter_entries_keys p kv hkv
            simp [this]
          have hI : List.find? (fun kv => kv.1 = "instance-state-name")
              (image_filter_entries p) = none := by
            rw [List.find?_eq_none]
            intro kv hkv
            have := image_filter_entries_keys p kv hkv
            simp [this]
          simp [getFilter, List.find?_append, hB, hN, hI, List.find?]
      by_cases hlt : p.launch_template.isNone
      · cases hbase : build_network_filters env p with
        | error e =>
          simp [build_filters, hids, hlt, hbase, bind, Except.bind] at h
        | ok base =>
          simp only [build_filters, hids, hlt, hbase, if_true, List.isEmpty_nil,
            bind, Except.bind] at h
          exact step base (build_network_filters_keys env p base hbase) h
      · simp only [build_filters, hids, hlt, if_false, List.isEmpty_nil,
          bind, Except.bind, pure, Except.pure] at h
        exact step [] (by simp) h

/-- C6 counterexample: with a declared destroyed target
(`state=terminated`), the engine-built filters still carry the
`instance-state-name` filter excluding destroyed resources — there is no
exception for destroyed targets, contrary to the claim. -/
theorem build_filters_terminated_counterexample :
    ({ state := "terminated", name := some "web",
       vpc_subnet_id := some "subnet-0abc" } : Params).state = "terminated" ∧
    build_filters {}
        { state := "terminated", name := some "web", vpc_subnet_id := some "subnet-0abc" } =
      .ok [("subnet-id", .list ["subnet-0abc"]), ("tag:Name", .list ["web"]),
           ("instance-state-name", .list instance_state_names)] ∧
    getFilter [("subnet-id", .list ["subnet-0abc"]), ("tag:Name", .list ["web"]),
        ("instance-state-name", .list instance_state_names)] "instance-state-name" =
      some (.list instance_state_names) ∧
    ¬ "terminated" ∈ instance_state_names := by
  refine ⟨rfl, rfl, rfl, ?_⟩
  decide

/-- C6 witness: the amended theorem applied to the counterexample's
concrete parameters. -/
theorem build_filters_always_excludes_destroyed_witness :
    getFilter [("subnet-id", .list ["subnet-0abc"]), ("tag:Name", .list ["web"]),
        ("instance-state-name", .list instance_state_names)] "instance-state-name" =
      some (.list instance_state_names) := by
  exact build_filters_always_excludes_destroyed {}
    { state := "terminated", name := some "web", vpc_subnet_id := some "subnet-0abc" }
    [("subnet-id", .list ["subnet-0abc"]), ("tag:Name", .list ["web"]),
     ("instance-state-name", .list instance_state_names)]
    rfl (by decide)

/-- C5: outside check mode, a batch transition to `terminated` first
awaits `stopped` for a resource observed `Stopping` (and `running` for
one observed `Pending`) and only then issues its terminate call: the
per-resource call sequence is exactly await-then-terminate, and inside
the batch trace the pair appears in that order, so a `Stopping` resource
is never terminated directly. -/
theorem change_instance_state_terminate_ordering (wait : Bool) (inst : LiveInst)
    (instances : List LiveInst) :
    (inst.state = .stopping →
      change_one_instance wait false .terminated inst =
        ([.waitFor "instance_stopped" [inst.instanceId],
          .terminateCall [inst.instanceId]], [inst.instanceId], [])) ∧
    (inst.state = .pending →
      change_one_instance wait false .terminated inst =
        ([.waitFor "instance_running" [inst.instanceId],
          .terminateCall [inst.instanceId]], [inst.instanceId], [])) ∧
    (inst.state = .stopping → inst ∈ instances →
      ∃ pre post,
        (change_instance_state wait false instances .terminated).1 =
          pre ++ ([.waitFor "instance_stopped" [inst.instanceId],
                   .terminateCall [inst.instanceId]] ++ post)) := by
  have h1 : inst.state = .stopping →
      change_one_instance wait false .terminated inst =
        ([.waitFor "instance_stopped" [inst.instanceId],
          .terminateCall [inst.instanceId]], [inst.instanceId], []) := by
    intro hstop
    simp [change_one_instance, await_instances, hstop, state_to_boto3_waiter]
  refine ⟨h1, fun hpend => ?_, fun hstop hmem => ?_⟩
  · simp [change_one_instance, await_instances, hpend, state_to_boto3_waiter]
  · obtain ⟨s, t, rfl⟩ := List.append_of_mem hmem
    have htr := h1 hstop
    apply Exists.intro
    apply Exists.intro
    conv_lhs =>
      simp only [change_instance_state, ec2_instance_states, List.map_append,
        List.map_cons, List.flatten_append, List.flatten_cons, htr, List.append_assoc]

/-- C5 witness: the ordering theorem applied to a concrete batch holding
one `Stopping` instance. -/
theorem change_instance_state_terminate_ordering_witness :
    change_one_instance true false .terminated
        { instanceId := "i-1", state := .stopping } =
      ([.waitFor "instance_stopped" ["i-1"], .terminateCall ["i-1"]], ["i-1"], []) ∧
    ∃ pre post,
      (change_instance_state true false [{ instanceId := "i-1", state := .stopping }]
          .terminated).1 =
        pre ++ ([.waitFor "instance_stopped" ["i-1"], .terminateCall ["i-1"]] ++ post) := by
  have h := change_instance_state_terminate_ordering true
    { instanceId := "i-1", state := .stopping }
    [{ instanceId := "i-1", state := .stopping }]
  exact ⟨h.1 rfl, h.2.2 rfl (by simp)⟩

/-- Every successful `build_run_instance_spec` carries the fresh token
it was given and puts `run_instance_count` into both `MinCount` and
`MaxCount`. -/
theorem build_run_instance_spec_ok (tok : String) (env : Env) (p : Params) (cc : Int)
    (spec : RunSpec) (h : build_run_instance_spec tok env p cc = .ok spec) :
    spec.ClientToken = tok ∧
    spec.MinCount = run_instance_count p cc ∧
    spec.MaxCount = run_instance_count p cc := by
  cases htlo : build_top_level_options p with
  | error e => simp [build_run_instance_spec, htlo, bind, Except.bind] at h
  | ok tlo =>
  cases hv : validate_network_params p (run_instance_count p cc) with
  | error e => simp [build_run_instance_spec, htlo, hv, bind, Except.bind] at h
  | ok u =>
  cases hns : build_network_spec env p with
  | error e => simp [build_run_instance_spec, htlo, hv, hns, bind, Except.bind] at h
  | ok ns =>
  cases hvs : build_volume_spec p.volumes with
  | error e => simp [build_run_instance_spec, htlo, hv, hns, hvs, bind, Except.bind] at h
  | ok vs =>
  simp only [build_run_instance_spec, htlo, hv, hns, hvs, bind, Except.bind,
    pure, Except.pure] at h
  split at h
  · exact absurd h (by simp)
  · simp only [Except.ok.injEq] at h
    subst h
    exact ⟨rfl, rfl, rfl⟩

/-- Every call recorded by the retry loop carries the token it was
started with. -/
theorem run_instances_loop_tokens (behavior : Nat → CallOutcome) (tok : String) :
    ∀ (types : List String) (i k : Nat) (trace : List ProviderCall),
      (∀ c ∈ trace, c.clientToken = tok) →
      ∀ c ∈ (run_instances_loop behavior tok types i k trace).1, c.clientToken = tok := by
  intro types
  induction types with
  | nil =>
    intro i k trace h c hc
    simpa [run_instances_loop] using h c hc
  | cons t rest ih =>
    intro i k trace h c hc
    have hext : ∀ cs : List ProviderCall, (∀ x ∈ cs, x.clientToken = tok) →
        ∀ x ∈ trace ++ cs, x.clientToken = tok := by
      intro cs hcs x hx
      rcases List.mem_append.mp hx with h1 | h1
      · exact h x h1
      · exact hcs x h1
    have hone : ∀ r : CallOutcome, ∀ x ∈ [ProviderCall.mk tok t r], x.clientToken = tok := by
      intro r x hx
      rcases List.mem_singleton.mp hx with rfl
      rfl
    have htwo : ∀ r1 r2 : CallOutcome,
        ∀ x ∈ [ProviderCall.mk tok t r1, ProviderCall.mk tok t r2], x.clientToken = tok := by
      intro r1 r2 x hx
      rcases List.mem_cons.mp hx with rfl | hx
      · rfl
      · rcases List.mem_singleton.mp hx with rfl
        rfl
    simp only [run_instances_loop] at hc
    cases hb : behavior k with
    | ok =>
      simp only [hb] at hc
      exact hext _ (hone .ok) c hc
    | fatal =>
      simp only [hb] at hc
      exact hext _ (hone .fatal) c hc
    | capacity =>
      simp only [hb] at hc
      by_cases hre : rest.isEmpty = true
      · rw [if_pos hre] at hc
        exact hext _ (hone .capacity) c hc
      · rw [if_neg hre] at hc
        exact ih (i + 1) (k + 1) _ (hext _ (hone .capacity)) c hc
    | iamProfile =>
      simp only [hb] at hc
      cases hb2 : behavior (k + 1) with
      | ok =>
        simp only [hb2] at hc
        exact hext _ (htwo .iamProfile .ok) c hc
      | fatal =>
        simp only [hb2] at hc
        exact hext _ (htwo .iamProfile .fatal) c hc
      | iamProfile =>
        simp only [hb2] at hc
        exact hext _ (htwo .iamProfile .iamProfile) c hc
      | capacity =>
        simp only [hb2] at hc
        by_cases hre : rest.isEmpty = true
        · rw [if_pos hre] at hc
          exact hext _ (htwo .iamProfile .capacity) c hc
        · rw [if_neg hre] at hc
          exact ih (i + 1) (k + 2) _ (hext _ (htwo .iamProfile .capacity)) c hc

/-- The trace returned by `run_instances` is the loop trace. -/
theorem run_instances_trace (behavior : Nat → CallOutcome) (p : Params) (spec : RunSpec) :
    (run_instances behavior p spec).1 =
      (run_instances_loop behavior spec.ClientToken
        ((match spec.InstanceType with | some t => [t] | none => []) ++
          p.alternate_instance_types.getD []) 0 0 []).1 := by
  simp only [run_instances]
  rcases hres : run_instances_loop behavior spec.ClientToken
      ((match spec.InstanceType with | some t => [t] | none => []) ++
        p.alternate_instance_types.getD []) 0 0 [] with ⟨trace, out⟩
  rw [hres]
  cases out <;> simp

/-- C4: the idempotency token is generated exactly once, when the
creation request is built (`build_run_instance_spec` stamps the fresh
token into `ClientToken`), and every provider create call issued by the
retry loop of `run_instances` — across alternate types and across the
transient-authorization retry — carries exactly that token. -/
theorem client_token_single_generation :
    (∀ tok env p cc spec, build_run_instance_spec tok env p cc = .ok spec →
      spec.ClientToken = tok) ∧
    (∀ (behavior : Nat → CallOutcome) (p : Params) (spec : RunSpec),
      ∀ c ∈ (run_instances behavior p spec).1, c.clientToken = spec.ClientToken) := by
  constructor
  · intro tok env p cc spec h
    exact (build_run_instance_spec_ok tok env p cc spec h).1
  · intro behavior p spec c hc
    rw [run_instances_trace] at hc
    exact run_instances_loop_tokens behavior spec.ClientToken _ 0 0 [] (by simp) c hc

/-- C4 witness: a concrete spec build carrying its fresh token, and a
concrete retry-loop call carrying that spec's token. -/
theorem client_token_single_generation_witness :
    build_run_instance_spec "tok-1" {}
        { image_id := some "ami-1", instance_type := some "t2.micro",
          vpc_subnet_id := some "subnet-a" } 0 =
      .ok { ClientToken := "tok-1", ImageId := some "ami-1", MinCount := 1, MaxCount := 1,
            NetworkInterfaces := [{ SubnetId := some "subnet-a",
                                    DeleteOnTermination := some true }],
            InstanceType := some "t2.micro" } ∧
    ({ ClientToken := "tok-1", ImageId := some "ami-1", MinCount := 1, MaxCount := 1,
       NetworkInterfaces := [{ SubnetId := some "subnet-a",
                               DeleteOnTermination := some true }],
       InstanceType := some "t2.micro" } : RunSpec).ClientToken = "tok-1" ∧
    (ProviderCall.mk "tok-1" "t2.micro" .capacity).clientToken =
      ({ ClientToken := "tok-1", InstanceType := some "t2.micro" } : RunSpec).ClientToken := by
  refine ⟨rfl, ?_, ?_⟩
  · exact client_token_single_generation.1 "tok-1" {}
      { image_id := some "ami-1", instance_type := some "t2.micro",
        vpc_subnet_id := some "subnet-a" } 0 _ rfl
  · exact client_token_single_generation.2 (fun _ => .capacity) {}
      { ClientToken := "tok-1", InstanceType := some "t2.micro" }
      (ProviderCall.mk "tok-1" "t2.micro" .capacity) (by decide)

/-- One capacity step of the retry loop: with remaining candidates the
loop records the failed call and advances. -/
theorem run_instances_loop_step_capacity (behavior : Nat → CallOutcome) (tok t : String)
    (rest : List String) (i k : Nat) (trace : List ProviderCall)
    (hb : behavior k = .capacity) (hne : rest.isEmpty = false) :
    run_instances_loop behavior tok (t :: rest) i k trace =
      run_instances_loop behavior tok rest (i + 1) (k + 1)
        (trace ++ [ProviderCall.mk tok t .capacity]) := by
  conv_lhs => rw [run_instances_loop]
  simp only [hb, hne, Bool.false_eq_true, if_false]

/-- Under an all-capacity provider the retry loop tries every candidate
once, records only capacity outcomes, and re-raises the capacity error
of the last candidate. -/
theorem run_instances_loop_all_capacity (behavior : Nat → CallOutcome) (tok : String)
    (hcap : ∀ k, behavior k = .capacity) :
    ∀ (types : List String) (h : types ≠ []) (i k : Nat) (trace : List ProviderCall),
      run_instances_loop behavior tok types i k trace =
        (trace ++ types.map (fun ty => ProviderCall.mk tok ty .capacity),
         .raised (.capacityError (types.getLast h))) := by
  intro types
  induction types with
  | nil => intro h; exact absurd rfl h
  | cons t rest ih =>
    intro h i k trace
    cases rest with
    | nil => simp [run_instances_loop, hcap k, List.getLast]
    | cons t2 rest2 =>
      rw [run_instances_loop_step_capacity behavior tok t (t2 :: rest2) i k trace
        (hcap k) (by simp)]
      rw [ih (by simp) (i + 1) (k + 1) (trace ++ [ProviderCall.mk tok t .capacity])]
      simp [List.getLast_cons]

/-- The outcome returned by `run_instances` is the loop outcome. -/
theorem run_instances_outcome (behavior : Nat → CallOutcome) (p : Params) (spec : RunSpec) :
    (run_instances behavior p spec).2.1 =
      (run_instances_loop behavior spec.ClientToken
        ((match spec.InstanceType with | some t => [t] | none => []) ++
          p.alternate_instance_types.getD []) 0 0 []).2 := by
  simp only [run_instances]
  rcases hres : run_instances_loop behavior spec.ClientToken
      ((match spec.InstanceType with | some t => [t] | none => []) ++
        p.alternate_instance_types.getD []) 0 0 [] with ⟨trace, out⟩
  rw [hres]
  cases out <;> simp

/-- A fatal (neither capacity nor IAM-propagation) provider outcome ends
the retry loop at that very call, wherever it arises: the call is the
last one recorded and its error is the raised outcome, so no further
candidate is tried after it. -/
theorem run_instances_loop_fatal_last (behavior : Nat → CallOutcome) (tok : String) :
    ∀ (types : List String) (i k : Nat) (trace : List ProviderCall),
      (∀ c ∈ trace, c.result ≠ .fatal) →
      ∀ c ∈ (run_instances_loop behavior tok types i k trace).1, c.result = .fatal →
        (run_instances_loop behavior tok types i k trace).1.getLast? = some c ∧
        (run_instances_loop behavior tok types i k trace).2 =
          .raised (.otherAwsError c.instanceType) := by
  intro types
  induction types with
  | nil =>
    intro i k trace hclean c hc hfat
    simp only [run_instances_loop] at hc
    exact absurd hfat (hclean c hc)
  | cons t rest ih =>
    intro i k trace hclean c hc hfat
    cases hb : behavior k with
    | ok =>
      have heq1 : (run_instances_loop behavior tok (t :: rest) i k trace).1 =
          trace ++ [ProviderCall.mk tok t .ok] := by
        simp [run_instances_loop, hb]
      rw [heq1] at hc
      rcases List.mem_append.mp hc with h | h
      · exact absurd hfat (hclean c h)
      · rw [List.mem_singleton] at h
        subst h
        exact CallOutcome.noConfusion hfat
    | capacity =>
      cases hrest : rest.isEmpty with
      | false =>
        have hstep := run_instances_loop_step_capacity behavior tok t rest i k trace hb hrest
        rw [hstep] at hc ⊢
        refine ih (i + 1) (k + 1) _ ?_ c hc hfat
        intro x hx
        rcases List.mem_append.mp hx with h | h
        · exact hclean x h
        · rw [List.mem_singleton] at h
          subst h
          exact fun hxx => CallOutcome.noConfusion hxx
      | true =>
        have hre : rest = [] := by
          cases rest with
          | nil => rfl
          | cons a as => simp at hrest
        subst hre
        have heq1 : (run_instances_loop behavior tok [t] i k trace).1 =
            trace ++ [ProviderCall.mk tok t .capacity] := by
          simp [run_instances_loop, hb]
        rw [heq1] at hc
        rcases List.mem_append.mp hc with h | h
        · exact absurd hfat (hclean c h)
        · rw [List.mem_singleton] at h
          subst h
          exact CallOutcome.noConfusion hfat
    | fatal =>
      have heq1 : (run_instances_loop behavior tok (t :: rest) i k trace).1 =
          trace ++ [ProviderCall.mk tok t .fatal] := by
        simp [run_instances_loop, hb]
      have heq2 : (run_instances_loop behavior tok (t :: rest) i k trace).2 =
          .raised (.otherAwsError t) := by
        simp [run_instances_loop, hb]
      rw [heq1] at hc
      rcases List.mem_append.mp hc with h | h
      · exact absurd hfat (hclean c h)
      · rw [List.mem_singleton] at h
        subst h
        refine ⟨?_, ?_⟩
        · rw [heq1]
          exact List.getLast?_concat _
        · rw [heq2]
    | iamProfile =>
      cases hb2 : behavior (k + 1) with
      | ok =>
        have heq1 : (run_instances_loop behavior tok (t :: rest) i k trace).1 =
            trace ++ [ProviderCall.mk tok t .iamProfile, ProviderCall.mk tok t .ok] := by
          simp [run_instances_loop, hb, hb2]
        rw [heq1] at hc
        rcases List.mem_append.mp hc with h | h
        · exact absurd hfat (hclean c h)
        · simp only [List.mem_cons, List.not_mem_nil, or_false] at h
          rcases h with h | h <;> subst h <;> exact CallOutcome.noConfusion hfat
      | capacity =>
        cases hrest : rest.isEmpty with
        | false =>
          have hstep : run_instances_loop behavior tok (t :: rest) i k trace =
              run_instances_loop behavior tok rest (i + 1) (k + 2)
                (trace ++ [ProviderCall.mk tok t .iamProfile,
                           ProviderCall.mk tok t .capacity]) := by
            conv_lhs => rw [run_instances_loop]
            simp only [hb, hb2, hrest, Bool.false_eq_true, if_false]
          rw [hstep] at hc ⊢
          refine ih (i + 1) (k + 2) _ ?_ c hc hfat
          intro x hx
          rcases List.mem_append.mp hx with h | h
          · exact hclean x h
          · simp only [List.mem_cons, List.not_mem_nil, or_false] at h
            rcases h with h | h <;> subst h <;> exact fun hxx => CallOutcome.noConfusion hxx
        | true =>
          have hre : rest = [] := by
            cases rest with
            | nil => rfl
            | cons a as => simp at hrest
          subst hre
          have heq1 : (run_instances_loop behavior tok [t] i k trace).1 =
              trace ++ [ProviderCall.mk tok t .iamProfile,
                        ProviderCall.mk tok t .capacity] := by
            simp [run_instances_loop, hb, hb2]
          rw [heq1] at hc
          rcases List.mem_append.mp hc with h | h
          · exact absurd hfat (hclean c h)
          · simp only [List.mem_cons, List.not_mem_nil, or_false] at h
            rcases h with h | h <;> subst h <;> exact CallOutcome.noConfusion hfat
      | iamProfile =>
        have heq1 : (run_instances_loop behavior tok (t :: rest) i k trace).1 =
            trace ++ [ProviderCall.mk tok t .iamProfile,
                      ProviderCall.mk tok t .iamProfile] := by
          simp [run_instances_loop, hb, hb2]
        rw [heq1] at hc
        rcases List.mem_append.mp hc with h | h
        · exact absurd hfat (hclean c h)
        · simp only [List.mem_cons, List.not_mem_nil, or_false] at h
          rcases h with h | h <;> subst h <;> exact CallOutcome.noConfusion hfat
      | fatal =>
        have heq1 : (run_instances_loop behavior tok (t :: rest) i k trace).1 =
            trace ++ [ProviderCall.mk tok t .iamProfile,
                      ProviderCall.mk tok t .fatal] := by
          simp [run_instances_loop, hb, hb2]
        have heq2 : (run_instances_loop behavior tok (t :: rest) i k trace).2 =
            .raised (.otherAwsError t) := by
          simp [run_instances_loop, hb, hb2]
        rw [heq1] at hc
        rcases List.mem_append.mp hc with h | h
        · exact absurd hfat (hclean c h)
        · simp only [List.mem_cons, List.not_mem_nil, or_false] at h
          rcases h with h | h
          · subst h
            exact CallOutcome.noConfusion hfat
          · subst h
            refine ⟨?_, ?_⟩
            · rw [heq1, show trace ++ [ProviderCall.mk tok t .iamProfile,
                    ProviderCall.mk tok t .fatal] =
                  (trace ++ [ProviderCall.mk tok t .iamProfile]) ++
                    [ProviderCall.mk tok t .fatal] from by simp]
              exact List.getLast?_concat _
            · rw [heq2]

/-- If every candidate before position `j` fails with capacity
exhaustion on its first call and the candidate at position `j` meets a
fatal error on its first call, the retry loop stops at that call: the
trace holds exactly the `j` capacity failures followed by the one fatal
call, the fatal error is re-raised, and the remaining candidates are
never tried. -/
theorem run_instances_loop_capacity_then_fatal (behavior : Nat → CallOutcome) (tok : String) :
    ∀ (done : List String) (fty : String) (rest : List String) (i k : Nat)
      (trace : List ProviderCall),
      (∀ m, m < done.length → behavior (k + m) = .capacity) →
      behavior (k + done.length) = .fatal →
      run_instances_loop behavior tok (done ++ fty :: rest) i k trace =
        (trace ++ done.map (fun ty => ProviderCall.mk tok ty .capacity) ++
           [ProviderCall.mk tok fty .fatal],
         .raised (.otherAwsError fty)) := by
  intro done
  induction done with
  | nil =>
    intro fty rest i k trace hpre hfat
    simp only [List.length_nil, Nat.add_zero] at hfat
    simp [run_instances_loop, hfat]
  | cons d ds ih =>
    intro fty rest i k trace hpre hfat
    have hd : behavior k = .capacity := by simpa using hpre 0 (by simp)
    rw [List.cons_append,
        run_instances_loop_step_capacity behavior tok d (ds ++ fty :: rest) i k trace hd
          (by cases ds <;> rfl),
        ih fty rest (i + 1) (k + 1) (trace ++ [ProviderCall.mk tok d .capacity])
          (fun m hm => by
            have h3 : k + 1 + m = k + (m + 1) := by omega
            rw [h3]
            exact hpre (m + 1) (by simp only [List.length_cons]; omega))
          (by
            have h2 : k + 1 + ds.length = k + (d :: ds).length := by
              simp only [List.length_cons]
              omega
            rw [h2]
            exact hfat)]
    simp

/-- C2: when every candidate (the primary subtype and each declared
alternate, tried in declared order) fails with capacity exhaustion,
`run_instances` raises the capacity error of the last attempted
candidate, every recorded call is a capacity failure (so nothing is
created), and the module parameters are untouched; and any error that is
neither capacity exhaustion nor the transient authorization error stops
the retry immediately, wherever in the pass it arises: a fatal call is
always the last physical call of the trace and its error is the raised
outcome (so no further candidate is tried, including after a capacity
prefix or during the authorization retry); concretely, capacity failures
on the first `j` candidates followed by a fatal first call of candidate
`j` yield exactly those `j + 1` calls with the fatal error re-raised and
the parameters untouched, and a fatal call during the authorization
retry of the primary ends the pass with those two calls. -/
theorem run_instances_capacity_exhaustion :
    (∀ (behavior : Nat → CallOutcome) (p : Params) (spec : RunSpec) (t : String),
      (∀ k, behavior k = .capacity) → spec.InstanceType = some t →
      ∃ lastT, (t :: p.alternate_instance_types.getD []).getLast? = some lastT ∧
        run_instances behavior p spec =
          ((t :: p.alternate_instance_types.getD []).map
              (fun ty => ProviderCall.mk spec.ClientToken ty .capacity),
           .raised (.capacityError lastT), p) ∧
        createdCalls (run_instances behavior p spec).1 = 0) ∧
    (∀ (behavior : Nat → CallOutcome) (p : Params) (spec : RunSpec)
        (c : ProviderCall),
      c ∈ (run_instances behavior p spec).1 → c.result = .fatal →
      (run_instances behavior p spec).1.getLast? = some c ∧
      (run_instances behavior p spec).2.1 =
        .raised (.otherAwsError c.instanceType)) ∧
    (∀ (behavior : Nat → CallOutcome) (p : Params) (spec : RunSpec)
        (t fty : String) (done rest : List String),
      spec.InstanceType = some t →
      t :: p.alternate_instance_types.getD [] = done ++ fty :: rest →
      (∀ m, m < done.length → behavior m = .capacity) →
      behavior done.length = .fatal →
      run_instances behavior p spec =
        (done.map (fun ty => ProviderCall.mk spec.ClientToken ty .capacity) ++
           [ProviderCall.mk spec.ClientToken fty .fatal],
         .raised (.otherAwsError fty), p)) ∧
    (∀ (behavior : Nat → CallOutcome) (p : Params) (spec : RunSpec) (t : String),
      spec.InstanceType = some t →
      behavior 0 = .iamProfile → behavior 1 = .fatal →
      run_instances behavior p spec =
        ([ProviderCall.mk spec.ClientToken t .iamProfile,
          ProviderCall.mk spec.ClientToken t .fatal],
         .raised (.otherAwsError t), p)) := by
  refine ⟨?_, ?_, ?_, ?_⟩
  · intro behavior p spec t hcap hty
    have hloop := run_instances_loop_all_capacity behavior spec.ClientToken hcap
      (t :: p.alternate_instance_types.getD []) (by simp) 0 0 []
    refine ⟨(t :: p.alternate_instance_types.getD []).getLast (by simp), ?_, ?_, ?_⟩
    · exact List.getLast?_eq_getLast _ (by simp)
    · simp only [run_instances, hty, List.singleton_append]
      rw [hloop]
      simp
    · simp only [run_instances, hty, List.singleton_append]
      rw [hloop]
      simp [createdCalls, List.filter_map, Function.comp]
  · intro behavior p spec c hc hfat
    rw [run_instances_trace] at hc
    have h := run_instances_loop_fatal_last behavior spec.ClientToken
      ((match spec.InstanceType with | some t => [t] | none => []) ++
        p.alternate_instance_types.getD []) 0 0 [] (by simp) c hc hfat
    rw [run_instances_trace, run_instances_outcome]
    exact h
  · intro behavior p spec t fty done rest hty hdec hpre hfat
    have hloop := run_instances_loop_capacity_then_fatal behavior spec.ClientToken
      done fty rest 0 0 []
      (fun m hm => by simpa using hpre m hm)
      (by simpa using hfat)
    simp only [run_instances, hty, List.singleton_append]
    rw [hdec, hloop]
    simp
  · intro behavior p spec t hty hb0 hb1
    simp [run_instances, run_instances_loop, hty, hb0, hb1]

/-- C2 witness: the exhaustion theorem applied to a primary type with
one alternate under an all-capacity provider; the fail-fast parts
applied to a fatal error on the second of three candidates (the loop
stops after two calls and never tries the third candidate) and to a
fatal error during the authorization retry of the primary (the loop
stops after the retry call and never tries the declared alternate). -/
theorem run_instances_capacity_exhaustion_witness :
    run_instances (fun _ => .capacity)
        { alternate_instance_types := some ["m5a.large"] }
        { ClientToken := "tok", InstanceType := some "m5.large" } =
      ([ProviderCall.mk "tok" "m5.large" .capacity,
        ProviderCall.mk "tok" "m5a.large" .capacity],
       .raised (.capacityError "m5a.large"),
       { alternate_instance_types := some ["m5a.large"] }) ∧
    (run_instances (fun k => if k = 0 then CallOutcome.capacity else .fatal)
        { alternate_instance_types := some ["m5a.large", "c5.large"] }
        { ClientToken := "tok", InstanceType := some "m5.large" }).1.getLast? =
      some (ProviderCall.mk "tok" "m5a.large" .fatal) ∧
    run_instances (fun k => if k = 0 then CallOutcome.capacity else .fatal)
        { alternate_instance_types := some ["m5a.large", "c5.large"] }
        { ClientToken := "tok", InstanceType := some "m5.large" } =
      ([ProviderCall.mk "tok" "m5.large" .capacity,
        ProviderCall.mk "tok" "m5a.large" .fatal],
       .raised (.otherAwsError "m5a.large"),
       { alternate_instance_types := some ["m5a.large", "c5.large"] }) ∧
    run_instances (fun k => if k = 0 then CallOutcome.iamProfile else .fatal)
        { alternate_instance_types := some ["m5a.large"] }
        { ClientToken := "tok", InstanceType := some "c5.large" } =
      ([ProviderCall.mk "tok" "c5.large" .iamProfile,
        ProviderCall.mk "tok" "c5.large" .fatal],
       .raised (.otherAwsError "c5.large"),
       { alternate_instance_types := some ["m5a.large"] }) := by
  refine ⟨?_, ?_, ?_, ?_⟩
  · obtain ⟨lastT, hlast, heq, -⟩ := run_instances_capacity_exhaustion.1
      (fun _ => .capacity)
      { alternate_instance_types := some ["m5a.large"] }
      { ClientToken := "tok", InstanceType := some "m5.large" } "m5.large"
      (fun _ => rfl) rfl
    have h2 : lastT = "m5a.large" := by
      have h3 := hlast
      simp [List.getLast?] at h3
      exact h3.symm
    rw [h2] at heq
    simpa using heq
  · exact (run_instances_capacity_exhaustion.2.1
      (fun k => if k = 0 then CallOutcome.capacity else .fatal)
      { alternate_instance_types := some ["m5a.large", "c5.large"] }
      { ClientToken := "tok", InstanceType := some "m5.large" }
      (ProviderCall.mk "tok" "m5a.large" .fatal)
      (by decide) rfl).1
  · exact run_instances_capacity_exhaustion.2.2.1
      (fun k => if k = 0 then CallOutcome.capacity else .fatal)
      { alternate_instance_types := some ["m5a.large", "c5.large"] }
      { ClientToken := "tok", InstanceType := some "m5.large" }
      "m5.large" "m5a.large" ["m5.large"] ["c5.large"] rfl rfl
      (by decide) rfl
  · exact run_instances_capacity_exhaustion.2.2.2
      (fun k => if k = 0 then CallOutcome.iamProfile else .fatal)
      { alternate_instance_types := some ["m5a.large"] }
      { ClientToken := "tok", InstanceType := some "c5.large" } "c5.large"
      rfl rfl rfl

/-- Every entry of the security-group diff block changes the group set. -/
theorem groups_changes_attr (env : Env) (p : Params) (inst : LiveInst)
    (l : List ChangeEntry) (h : groups_changes env p inst = .ok l) :
    ∀ c ∈ l, c.attr = .secGroups := by
  simp only [groups_changes, bind, Except.bind, pure, Except.pure] at h
  split at h
  · simp only [Except.ok.injEq] at h
    subst h
    simp
  · split at h
    · simp only [Except.ok.injEq] at h
      subst h
      simp
    · cases hsub : groups_subnet env p (effective_network_interfaces p) with
      | error e =>
        rw [hsub] at h
        simp at h
      | ok sub =>
        rw [hsub] at h
        simp only [] at h
        split at h
        · simp only [Except.ok.injEq] at h
          subst h
          simp
        · split at h
          · simp only [Except.ok.injEq] at h
            subst h
            intro c hc
            rcases List.mem_singleton.mp hc with rfl
            rfl
          · simp only [Except.ok.injEq] at h
            subst h
            simp

/-- Every entry of the `source_dest_check` diff block changes that
flag. -/
theorem source_dest_changes_attr (p : Params) (inst : LiveInst) :
    ∀ c ∈ source_dest_changes p inst, c.attr = .srcDest := by
  intro c hc
  simp only [source_dest_changes] at hc
  split at hc
  · simp at hc
  · split at hc
    · rcases List.mem_singleton.mp hc with rfl
      rfl
    · simp at hc

/-- Membership in one mapper block certifies a declared, unskipped and
mismatched parameter. -/
theorem mapper_change_mem {α : Type} [inst0 : DecidableEq α] (param : Option α)
    (instance_key : String) (skip : List String) (live : α) (entry : α → ChangeEntry)
    (c : ChangeEntry) (hc : c ∈ mapper_change param instance_key skip live entry) :
    ∃ v, param = some v ∧ live ≠ v ∧ instance_key ∉ skip ∧ c = entry v := by
  cases hp : param with
  | none => simp [mapper_change, hp] at hc
  | some v =>
    simp only [mapper_change, hp] at hc
    by_cases hsk : instance_key ∈ skip
    · rw [if_pos hsk] at hc
      simp at hc
    · rw [if_neg hsk] at hc
      by_cases hcmp : live = v
      · rw [if_neg (by simpa using hcmp)] at hc
        simp at hc
      · rw [if_pos hcmp] at hc
        rcases List.mem_singleton.mp hc with rfl
        exact ⟨v, rfl, hcmp, hsk, rfl⟩

/-- A declared parameter matching the live value (or absent) produces
no mapper entry. -/
theorem mapper_change_eq_nil {α : Type} [inst0 : DecidableEq α] (param : Option α)
    (instance_key : String) (skip : List String) (live : α) (entry : α → ChangeEntry)
    (h : ∀ v, param = some v → live = v) :
    mapper_change param instance_key skip live entry = [] := by
  cases hp : param with
  | none => simp [mapper_change]
  | some v => simp [mapper_change, h v hp]

/-- A declared, unskipped, mismatched parameter produces exactly its
mapper entry. -/
theorem mapper_change_eq_singleton {α : Type} [inst0 : DecidableEq α] {param : Option α}
    {v : α} (instance_key : String) (skip : List String) {live : α}
    (entry : α → ChangeEntry) (hp : param = some v) (hne : live ≠ v)
    (hsk : instance_key ∉ skip) :
    mapper_change param instance_key skip live entry = [entry v] := by
  simp only [mapper_change, hp]
  rw [if_neg hsk, if_pos hne]

/-- An instance-type entry of the mapper block certifies a declared and
mismatched `instance_type`. -/
theorem diff_mapper_changes_instType (p : Params) (inst : LiveInst) (skip : List String) :
    ∀ c ∈ diff_mapper_changes p inst skip, c.attr = .instType →
      ∃ v, p.instance_type = some v ∧ inst.instanceType ≠ v := by
  intro c hc hattr
  simp only [diff_mapper_changes] at hc
  rcases List.mem_append.mp hc with hc | hc
  · rcases List.mem_append.mp hc with hc | hc
    · obtain ⟨v, -, -, -, rfl⟩ := mapper_change_mem _ _ _ _ _ c hc
      exact absurd hattr (by simp [ChangeEntry.attr])
    · obtain ⟨v, -, -, -, rfl⟩ := mapper_change_mem _ _ _ _ _ c hc
      exact absurd hattr (by simp [ChangeEntry.attr])
  · obtain ⟨v, hp, hne, -, rfl⟩ := mapper_change_mem _ _ _ _ _ c hc
    exact ⟨v, hp, hne⟩

/-- C3: when `run_instances` launches with a non-primary candidate, the
recorded declared subtype (`module.params["instance_type"]`) is
overwritten with the subtype actually launched, and a subsequent diff of
the launched resource (whose live subtype is the launched one) against
the updated declaration produces no instance-subtype change entry. -/
theorem run_instances_alternate_success_no_type_diff
    (behavior : Nat → CallOutcome) (p : Params) (spec : RunSpec)
    (trace : List ProviderCall) (t : String) (p' : Params)
    (h : run_instances behavior p spec = (trace, .launched t true, p')) :
    p'.instance_type = some t ∧
    (∀ (env : Env) (inst : LiveInst) (skip : List String) (l : List ChangeEntry),
      inst.instanceType = t →
      diff_instance_and_params env p' inst skip = .ok l →
      ∀ c ∈ l, c.attr ≠ .instType) := by
  have hp' : p'.instance_type = some t := by
    rcases hres : run_instances_loop behavior spec.ClientToken
        ((match spec.InstanceType with | some ty => [ty] | none => []) ++
          p.alternate_instance_types.getD []) 0 0 [] with ⟨tr, out⟩
    simp only [run_instances, hres] at h
    cases out with
    | raised e => simp at h
    | launched u alt =>
      simp only [Prod.mk.injEq, RunOutcome.launched.injEq] at h
      obtain ⟨-, ⟨hu, halt⟩, h3⟩ := h
      subst hu
      rw [halt] at h3
      rw [← h3]
      simp
  refine ⟨hp', fun env inst skip l hit hdiff c hc hattr => ?_⟩
  cases hg : groups_changes env p' inst with
  | error e =>
    simp [diff_instance_and_params, hg, bind, Except.bind] at hdiff
  | ok gl =>
    simp only [diff_instance_and_params, hg, bind, Except.bind, pure, Except.pure,
      Except.ok.injEq] at hdiff
    subst hdiff
    rcases List.mem_append.mp hc with hc1 | hc1
    · rcases List.mem_append.mp hc1 with hc2 | hc2
      · obtain ⟨v, hsome, hne⟩ :=
          diff_mapper_changes_instType p' inst skip c hc2 hattr
        rw [hp'] at hsome
        rcases Option.some.injEq .. |>.mp hsome with rfl
        exact hne hit
      · have := groups_changes_attr env p' inst gl hg c hc2
        rw [this] at hattr
        cases hattr
    · have := source_dest_changes_attr p' inst c hc1
      rw [this] at hattr
      cases hattr

/-- C3 witness: a concrete primary capacity failure followed by an
alternate success; the recorded subtype becomes the alternate and the
subsequent diff of the launched resource yields no entries. -/
theorem run_instances_alternate_success_no_type_diff_witness :
    ({ instance_type := some "m5a.large",
       alternate_instance_types := some ["m5a.large"] } : Params).instance_type =
      some "m5a.large" ∧
    diff_instance_and_params {}
        { instance_type := some "m5a.large",
          alternate_instance_types := some ["m5a.large"] }
        { instanceId := "i-9", instanceType := "m5a.large" } [] = .ok [] ∧
    (∀ c ∈ ([] : List ChangeEntry), c.attr ≠ .instType) := by
  have h := run_instances_alternate_success_no_type_diff
    (fun k => if k = 0 then .capacity else .ok)
    { instance_type := some "m5.large", alternate_instance_types := some ["m5a.large"] }
    { ClientToken := "tok", InstanceType := some "m5.large" }
    [ProviderCall.mk "tok" "m5.large" .capacity, ProviderCall.mk "tok" "m5a.large" .ok]
    "m5a.large"
    { instance_type := some "m5a.large", alternate_instance_types := some ["m5a.large"] }
    (by decide)
  exact ⟨h.1, rfl,
    h.2 {} { instanceId := "i-9", instanceType := "m5a.large" } [] [] rfl rfl⟩

/-- `lexLe` is reflexive. -/
theorem lexLe_refl (l : List Char) : lexLe l l = true := by
  induction l with
  | nil => rfl
  | cons a as ih => simp [lexLe, ih]

/-- `lexLe` is total. -/
theorem lexLe_total (a b : List Char) : lexLe a b = true ∨ lexLe b a = true := by
  induction a generalizing b with
  | nil => left; rfl
  | cons x xs ih =>
    cases b with
    | nil => right; rfl
    | cons y ys =>
      rcases lt_trichotomy x y with h | h | h
      · left; simp [lexLe, h]
      · subst h
        rcases ih ys with h2 | h2
        · left; simp [lexLe, lt_irrefl, h2]
        · right; simp [lexLe, lt_irrefl, h2]
      · right; simp [lexLe, h]

/-- `lexLe` is transitive. -/
theorem lexLe_trans (a b c : List Char) (h1 : lexLe a b = true) (h2 : lexLe b c = true) :
    lexLe a c = true := by
  induction a generalizing b c with
  | nil => rfl
  | cons x xs ih =>
    cases b with
    | nil => simp [lexLe] at h1
    | cons y ys =>
      cases c with
      | nil => simp [lexLe] at h2
      | cons z zs =>
        simp only [lexLe] at h1 h2 ⊢
        rcases lt_trichotomy x y with hxy | hxy | hxy
        · rcases lt_trichotomy y z with hyz | hyz | hyz
          · simp [lt_trans hxy hyz]
          · subst hyz; simp [hxy]
          · rw [if_neg (by exact fun hlt => absurd hlt (not_lt.mpr hyz.le)),
              if_pos hyz] at h2
            cases h2
        · subst hxy
          rw [if_neg (lt_irrefl x), if_neg (lt_irrefl x)] at h1
          rcases lt_trichotomy x z with hyz | hyz | hyz
          · simp [hyz]
          · subst hyz
            rw [if_neg (lt_irrefl x), if_neg (lt_irrefl x)] at h2 ⊢
            exact ih ys zs h1 h2
          · rw [if_neg (by exact fun hlt => absurd hlt (not_lt.mpr hyz.le)),
              if_pos hyz] at h2
            cases h2
        · rw [if_neg (by exact fun hlt => absurd hlt (not_lt.mpr hxy.le)),
            if_pos hxy] at h1
          cases h1

/-- C8: default placement is deterministic.  (i) A built network
interface with no explicit subnet (and no `vpc_subnet_id`) takes the
account default subnet.  (ii) With no availability zone declared, the
default subnet is the available default-per-AZ subnet of the default
VPC whose availability-zone name is lexicographically first.  (iii)
With a declared availability zone holding a default subnet, that zone's
subnet is chosen instead. -/
theorem default_subnet_deterministic_choice (env : Env) (p : Params)
    (iface : NetworkIfaceParam) (groups : Option (List String)) (vpc : Vpc) :
    (∀ s, truthyStr iface.subnet_id = none → truthyStr p.vpc_subnet_id = none →
      describe_default_subnet env p true = .ok s →
      ∃ spec, ansible_to_boto3_eni_specification env p iface p.vpc_subnet_id groups =
          .ok spec ∧ spec.SubnetId = some s) ∧
    (p.availability_zone = none → get_default_vpc env = some vpc →
      default_subnet_candidates env vpc ≠ [] →
      ∃ s, get_default_subnet env vpc none = some s ∧
        s ∈ default_subnet_candidates env vpc ∧
        (∀ u ∈ default_subnet_candidates env vpc,
          strLe s.availabilityZone u.availabilityZone = true) ∧
        describe_default_subnet env p true = .ok s.subnetId) ∧
    (∀ z, p.availability_zone = some z → get_default_vpc env = some vpc →
      (∃ u ∈ default_subnet_candidates env vpc, u.availabilityZone = z) →
      ∃ s, get_default_subnet env vpc (some z) = some s ∧
        s.availabilityZone = z ∧ s ∈ default_subnet_candidates env vpc ∧
        describe_default_subnet env p true = .ok s.subnetId) := by
  haveI htot : IsTotal Subnet subnetAzLe :=
    ⟨fun a b => lexLe_total a.availabilityZone.data b.availabilityZone.data⟩
  haveI htrans : IsTrans Subnet subnetAzLe :=
    ⟨fun a b c => lexLe_trans a.availabilityZone.data b.availabilityZone.data
      c.availabilityZone.data⟩
  refine ⟨fun s h1 h2 hds => ?_, fun haz hvpc hne => ?_, fun z haz hvpc hex => ?_⟩
  · simp only [ansible_to_boto3_eni_specification, h1, h2, hds, bind, Except.bind,
      pure, Except.pure]
    exact ⟨_, rfl, rfl⟩
  · have hsne : (default_subnet_candidates env vpc).insertionSort subnetAzLe ≠ [] := by
      intro h0
      have := List.perm_insertionSort subnetAzLe (default_subnet_candidates env vpc)
      rw [h0] at this
      exact hne (this.nil_eq).symm
    set sorted := (default_subnet_candidates env vpc).insertionSort subnetAzLe with hsorted
    refine ⟨sorted.head hsne, ?_, ?_, ?_, ?_⟩
    · simp only [get_default_subnet, Option.bind]
      exact List.head?_eq_head hsne
    · exact (List.perm_insertionSort subnetAzLe _).subset (List.head_mem hsne)
    · intro u hu
      have hu2 : u ∈ sorted :=
        ((List.perm_insertionSort subnetAzLe _).symm.subset) hu
      have hsortedp : List.Sorted subnetAzLe sorted :=
        List.sorted_insertionSort subnetAzLe _
      rw [← List.head_cons_tail sorted hsne] at hu2 hsortedp
      rcases List.mem_cons.mp hu2 with rfl | htl
      · exact lexLe_refl _
      · exact List.rel_of_pairwise_cons hsortedp htl
    · simp only [describe_default_subnet, hvpc, if_true, haz]
      rw [show get_default_subnet env vpc none = some (sorted.head hsne) from by
        simp only [get_default_subnet, Option.bind]
        exact List.head?_eq_head hsne]
  · obtain ⟨u, hu, huz⟩ := hex
    have hmemrev : u ∈ (default_subnet_candidates env vpc).reverse :=
      List.mem_reverse.mpr hu
    have hfind : ((default_subnet_candidates env vpc).reverse.find?
        (fun s => s.availabilityZone = z)).isSome := by
      rw [Option.isSome_iff_ne_none]
      intro h0
      rw [List.find?_eq_none] at h0
      exact h0 u hmemrev (by simp [huz])
    obtain ⟨s, hs⟩ := Option.isSome_iff_exists.mp hfind
    refine ⟨s, ?_, ?_, ?_, ?_⟩
    · simp only [get_default_subnet, haz, Option.bind, hs]
    · simpa using List.find?_some hs
    · exact List.mem_reverse.mp (List.mem_of_find?_eq_some hs)
    · simp only [describe_default_subnet, hvpc, if_true, haz]
      rw [show get_default_subnet env vpc (some z) = some s from by
        simp only [get_default_subnet, Option.bind, hs]]

/-- C8 witness: with two default subnets in zones `us-east-1a` /
`us-east-1b`, the no-zone lookup picks the lexicographically first zone
and the zoned lookup picks the declared zone's subnet. -/
theorem default_subnet_deterministic_choice_witness :
    describe_default_subnet
        { vpcs := [⟨"vpc-1", true⟩],
          subnets := [⟨"subnet-b", "us-east-1b", "vpc-1", "available", true⟩,
                      ⟨"subnet-a", "us-east-1a", "vpc-1", "available", true⟩] }
        {} true = .ok "subnet-a" ∧
    describe_default_subnet
        { vpcs := [⟨"vpc-1", true⟩],
          subnets := [⟨"subnet-b", "us-east-1b", "vpc-1", "available", true⟩,
                      ⟨"subnet-a", "us-east-1a", "vpc-1", "available", true⟩] }
        { availability_zone := some "us-east-1b" } true = .ok "subnet-b" := by
  constructor
  · obtain ⟨s, h1, -, -, h4⟩ := (default_subnet_deterministic_choice
      { vpcs := [⟨"vpc-1", true⟩],
        subnets := [⟨"subnet-b", "us-east-1b", "vpc-1", "available", true⟩,
                    ⟨"subnet-a", "us-east-1a", "vpc-1", "available", true⟩] }
      {} {} none ⟨"vpc-1", true⟩).2.1 rfl rfl (by decide)
    have h0 : s = ⟨"subnet-a", "us-east-1a", "vpc-1", "available", true⟩ := by
      have h5 : get_default_subnet
          { vpcs := [⟨"vpc-1", true⟩],
            subnets := [⟨"subnet-b", "us-east-1b", "vpc-1", "available", true⟩,
                        ⟨"subnet-a", "us-east-1a", "vpc-1", "available", true⟩] }
          ⟨"vpc-1", true⟩ none =
          some ⟨"subnet-a", "us-east-1a", "vpc-1", "available", true⟩ := by decide
      rw [h5] at h1
      exact (Option.some.injEq .. |>.mp h1).symm
    rw [h0] at h4
    exact h4
  · obtain ⟨s, h1, -, -, h4⟩ := (default_subnet_deterministic_choice
      { vpcs := [⟨"vpc-1", true⟩],
        subnets := [⟨"subnet-b", "us-east-1b", "vpc-1", "available", true⟩,
                    ⟨"subnet-a", "us-east-1a", "vpc-1", "available", true⟩] }
      { availability_zone := some "us-east-1b" } {} none ⟨"vpc-1", true⟩).2.2
      "us-east-1b" rfl rfl (by decide)
    have h0 : s = ⟨"subnet-b", "us-east-1b", "vpc-1", "available", true⟩ := by
      have h5 : get_default_subnet
          { vpcs := [⟨"vpc-1", true⟩],
            subnets := [⟨"subnet-b", "us-east-1b", "vpc-1", "available", true⟩,
                        ⟨"subnet-a", "us-east-1a", "vpc-1", "available", true⟩] }
          ⟨"vpc-1", true⟩ (some "us-east-1b") =
          some ⟨"subnet-b", "us-east-1b", "vpc-1", "available", true⟩ := by decide
      rw [h5] at h1
      exact (Option.some.injEq .. |>.mp h1).symm
    rw [h0] at h4
    exact h4

/-- When neither interfaces nor groups are declared, the groups chain of
the diff engine is empty. -/
theorem declared_groups_none_of_not_entering (p : Params)
    (h1 : (effective_network_interfaces p).isEmpty = true)
    (h2 : p.security_groups.isEmpty = true)
    (h3 : (truthyStr p.security_group).isNone = true) :
    declared_groups p (effective_network_interfaces p) = none := by
  have h3' : truthyStr p.security_group = none := by
    cases hsg : truthyStr p.security_group
    · rfl
    · rw [hsg] at h3; cases h3
  rw [List.isEmpty_iff] at h1
  simp [declared_groups, h1, effective_module_groups, truthyList, h2, h3']

/-- A group-set agreement (whenever groups are declared and the subnet
resolves, the resolved set equals the live set) yields no group diff
entry. -/
theorem groups_changes_ok_nil (env : Env) (p : Params) (inst : LiveInst)
    (gl : List ChangeEntry) (hg : groups_changes env p inst = .ok gl)
    (hagree : ∀ gs sub, declared_groups p (effective_network_interfaces p) = some gs →
      groups_subnet env p (effective_network_interfaces p) = .ok sub →
      sameSet inst.groupSet (env.resolveGroups gs sub) = true) :
    gl = [] := by
  simp only [groups_changes, bind, Except.bind, pure, Except.pure] at hg
  split at hg
  · simp only [Except.ok.injEq] at hg
    exact hg.symm
  · split at hg
    · simp only [Except.ok.injEq] at hg
      exact hg.symm
    · cases hsub : groups_subnet env p (effective_network_interfaces p) with
      | error e =>
        rw [hsub] at hg
        simp at hg
      | ok sub =>
        rw [hsub] at hg
        cases hdecl : declared_groups p (effective_network_interfaces p) with
        | none =>
          simp only [hdecl, Except.ok.injEq] at hg
          exact hg.symm
        | some gs =>
          simp only [hdecl] at hg
          rw [if_neg (by simp [hagree gs sub hdecl hsub])] at hg
          simp only [Except.ok.injEq] at hg
          exact hg.symm

/-- Without a declared groups chain there is never a group diff
entry. -/
theorem groups_changes_ok_nil_of_none (env : Env) (p : Params) (inst : LiveInst)
    (gl : List ChangeEntry) (hg : groups_changes env p inst = .ok gl)
    (hdecl : declared_groups p (effective_network_interfaces p) = none) :
    gl = [] := by
  refine groups_changes_ok_nil env p inst gl hg (fun gs sub hd _ => ?_)
  rw [hdecl] at hd
  cases hd

/-- Declared and mismatched groups on a single-interface resource
produce exactly one group diff entry, for the resolved group set. -/
theorem groups_changes_ok_singleton (env : Env) (p : Params) (inst : LiveInst)
    (gl : List ChangeEntry) (gs : List String) (sub : Option String)
    (hg : groups_changes env p inst = .ok gl)
    (hdecl : declared_groups p (effective_network_interfaces p) = some gs)
    (hsub : groups_subnet env p (effective_network_interfaces p) = .ok sub)
    (hsame : sameSet inst.groupSet (env.resolveGroups gs sub) = false)
    (hlen : (effective_network_interfaces p).length ≤ 1)
    (hnic : inst.networkInterfaceCount ≤ 1) :
    gl = [.groups inst.instanceId (env.resolveGroups gs sub)] := by
  simp only [groups_changes, bind, Except.bind, pure, Except.pure] at hg
  split at hg
  · rename_i hguard
    exact absurd hdecl (by
      rw [declared_groups_none_of_not_entering p hguard.1 hguard.2.1 hguard.2.2]
      simp)
  · split at hg
    · rename_i hguard2
      rcases hguard2 with hgt | hgt
      · omega
      · omega
    · rw [hsub] at hg
      simp only [hdecl] at hg
      rw [if_pos (by simp [hsame])] at hg
      simp only [Except.ok.injEq] at hg
      exact hg.symm

/-- An agreeing (or absent) `source_dest_check` declaration produces no
entry. -/
theorem source_dest_changes_eq_nil (p : Params) (inst : LiveInst)
    (h : ∀ v, effective_source_dest_check p = some v → inst.sourceDestCheck = v) :
    source_dest_changes p inst = [] := by
  cases he : effective_source_dest_check p with
  | none => simp [source_dest_changes, he]
  | some v => simp [source_dest_changes, he, h v he]

/-- A declared mismatched `source_dest_check` produces exactly its
entry. -/
theorem source_dest_changes_eq_singleton (p : Params) (inst : LiveInst) (v : Bool)
    (he : effective_source_dest_check p = some v) (hne : inst.sourceDestCheck ≠ v) :
    source_dest_changes p inst = [.sourceDestCheck inst.instanceId v] := by
  simp [source_dest_changes, he, hne]

/-- C7 (amended): for the allow-listed mutable attributes, an attribute
absent from the declaration never yields a change entry, and a
declaration differing from the live resource in exactly one allow-listed
attribute yields exactly that one entry — provided, for the
security-group attribute, that declaration and resource involve at most
one network interface (multi-interface resources skip group
modification with a warning, which refutes the unconditional claim). -/
theorem diff_minimality_allowlist (env : Env) (p : Params) (inst : LiveInst)
    (l : List ChangeEntry) (hdiff : diff_instance_and_params env p inst [] = .ok l) :
    ((p.ebs_optimized = none → ∀ c ∈ l, c.attr ≠ .ebsOpt) ∧
     (p.termination_protection = none → ∀ c ∈ l, c.attr ≠ .termProt) ∧
     (p.instance_type = none → ∀ c ∈ l, c.attr ≠ .instType) ∧
     (declared_groups p (effective_network_interfaces p) = none →
       ∀ c ∈ l, c.attr ≠ .secGroups) ∧
     (effective_source_dest_check p = none → ∀ c ∈ l, c.attr ≠ .srcDest)) ∧
    (∀ v, p.ebs_optimized = some v → inst.ebsOptimized ≠ v →
      (∀ w, p.termination_protection = some w → inst.disableApiTermination = w) →
      (∀ w, p.instance_type = some w → inst.instanceType = w) →
      (∀ gs sub, declared_groups p (effective_network_interfaces p) = some gs →
        groups_subnet env p (effective_network_interfaces p) = .ok sub →
        sameSet inst.groupSet (env.resolveGroups gs sub) = true) →
      (∀ w, effective_source_dest_check p = some w → inst.sourceDestCheck = w) →
      l = [.ebsOptimized inst.instanceId v]) ∧
    (∀ v, p.termination_protection = some v → inst.disableApiTermination ≠ v →
      (∀ w, p.ebs_optimized = some w → inst.ebsOptimized = w) →
      (∀ w, p.instance_type = some w → inst.instanceType = w) →
      (∀ gs sub, declared_groups p (effective_network_interfaces p) = some gs →
        groups_subnet env p (effective_network_interfaces p) = .ok sub →
        sameSet inst.groupSet (env.resolveGroups gs sub) = true) →
      (∀ w, effective_source_dest_check p = some w → inst.sourceDestCheck = w) →
      l = [.disableApiTermination inst.instanceId v]) ∧
    (∀ v, p.instance_type = some v → inst.instanceType ≠ v →
      (∀ w, p.ebs_optimized = some w → inst.ebsOptimized = w) →
      (∀ w, p.termination_protection = some w → inst.disableApiTermination = w) →
      (∀ gs sub, declared_groups p (effective_network_interfaces p) = some gs →
        groups_subnet env p (effective_network_interfaces p) = .ok sub →
        sameSet inst.groupSet (env.resolveGroups gs sub) = true) →
      (∀ w, effective_source_dest_check p = some w → inst.sourceDestCheck = w) →
      l = [.instanceType inst.instanceId v]) ∧
    (∀ gs sub, declared_groups p (effective_network_interfaces p) = some gs →
      groups_subnet env p (effective_network_interfaces p) = .ok sub →
      sameSet inst.groupSet (env.resolveGroups gs sub) = false →
      (effective_network_interfaces p).length ≤ 1 →
      inst.networkInterfaceCount ≤ 1 →
      (∀ w, p.ebs_optimized = some w → inst.ebsOptimized = w) →
      (∀ w, p.termination_protection = some w → inst.disableApiTermination = w) →
      (∀ w, p.instance_type = some w → inst.instanceType = w) →
      (∀ w, effective_source_dest_check p = some w → inst.sourceDestCheck = w) →
      l = [.groups inst.instanceId (env.resolveGroups gs sub)]) ∧
    (∀ v, effective_source_dest_check p = some v → inst.sourceDestCheck ≠ v →
      (∀ w, p.ebs_optimized = some w → inst.ebsOptimized = w) →
      (∀ w, p.termination_protection = some w → inst.disableApiTermination = w) →
      (∀ w, p.instance_type = some w → inst.instanceType = w) →
      (∀ gs sub, declared_groups p (effective_network_interfaces p) = some gs →
        groups_subnet env p (effective_network_interfaces p) = .ok sub →
        sameSet inst.groupSet (env.resolveGroups gs sub) = true) →
      l = [.sourceDestCheck inst.instanceId v]) := by
  cases hg : groups_changes env p inst with
  | error e =>
    simp [diff_instance_and_params, hg, bind, Except.bind] at hdiff
  | ok gl =>
  have hl : l = diff_mapper_changes p inst [] ++ gl ++ source_dest_changes p inst := by
    simp only [diff_instance_and_params, hg, bind, Except.bind, pure, Except.pure,
      Except.ok.injEq] at hdiff
    exact hdiff.symm
  have hmem : ∀ c ∈ l,
      c ∈ mapper_change p.ebs_optimized "EbsOptimized" [] inst.ebsOptimized
        (fun v => .ebsOptimized inst.instanceId v) ∨
      c ∈ mapper_change p.termination_protection "DisableApiTermination" []
        inst.disableApiTermination (fun v => .disableApiTermination inst.instanceId v) ∨
      c ∈ mapper_change p.instance_type "InstanceType" [] inst.instanceType
        (fun v => .instanceType inst.instanceId v) ∨
      c ∈ gl ∨ c ∈ source_dest_changes p inst := by
    intro c hc
    rw [hl] at hc
    rcases List.mem_append.mp hc with hc1 | hc1
    · rcases List.mem_append.mp hc1 with hc2 | hc2
      · rw [diff_mapper_changes] at hc2
        rcases List.mem_append.mp hc2 with hc3 | hc3
        · rcases List.mem_append.mp hc3 with hc4 | hc4
          · exact Or.inl hc4
          · exact Or.inr (Or.inl hc4)
        · exact Or.inr (Or.inr (Or.inl hc3))
      · exact Or.inr (Or.inr (Or.inr (Or.inl hc2)))
    · exact Or.inr (Or.inr (Or.inr (Or.inr hc1)))
  constructor
  · refine ⟨fun hnone c hc hattr => ?_, fun hnone c hc hattr => ?_,
      fun hnone c hc hattr => ?_, fun hnone c hc hattr => ?_,
      fun hnone c hc hattr => ?_⟩
    · rcases hmem c hc with h1 | h1 | h1 | h1 | h1
      · obtain ⟨v, hv, -, -, rfl⟩ := mapper_change_mem _ _ _ _ _ c h1
        rw [hnone] at hv
        cases hv
      · obtain ⟨v, -, -, -, rfl⟩ := mapper_change_mem _ _ _ _ _ c h1
        exact absurd hattr (by simp [ChangeEntry.attr])
      · obtain ⟨v, -, -, -, rfl⟩ := mapper_change_mem _ _ _ _ _ c h1
        exact absurd hattr (by simp [ChangeEntry.attr])
      · rw [groups_changes_attr env p inst gl hg c h1] at hattr
        cases hattr
      · rw [source_dest_changes_attr p inst c h1] at hattr
        cases hattr
    · rcases hmem c hc with h1 | h1 | h1 | h1 | h1
      · obtain ⟨v, -, -, -, rfl⟩ := mapper_change_mem _ _ _ _ _ c h1
        exact absurd hattr (by simp [ChangeEntry.attr])
      · obtain ⟨v, hv, -, -, rfl⟩ := mapper_change_mem _ _ _ _ _ c h1
        rw [hnone] at hv
        cases hv
      · obtain ⟨v, -, -, -, rfl⟩ := mapper_change_mem _ _ _ _ _ c h1
        exact absurd hattr (by simp [ChangeEntry.attr])
      · rw [groups_changes_attr env p inst gl hg c h1] at hattr
        cases hattr
      · rw [source_dest_changes_attr p inst c h1] at hattr
        cases hattr
    · rcases hmem c hc with h1 | h1 | h1 | h1 | h1
      · obtain ⟨v, -, -, -, rfl⟩ := mapper_change_mem _ _ _ _ _ c h1
        exact absurd hattr (by simp [ChangeEntry.attr])
      · obtain ⟨v, -, -, -, rfl⟩ := mapper_change_mem _ _ _ _ _ c h1
        exact absurd hattr (by simp [ChangeEntry.attr])
      · obtain ⟨v, hv, -, -, rfl⟩ := mapper_change_mem _ _ _ _ _ c h1
        rw [hnone] at hv
        cases hv
      · rw [groups_changes_attr env p inst gl hg c h1] at hattr
        cases hattr
      · rw [source_dest_changes_attr p inst c h1] at hattr
        cases hattr
    · rcases hmem c hc with h1 | h1 | h1 | h1 | h1
      · obtain ⟨v, -, -, -, rfl⟩ := mapper_change_mem _ _ _ _ _ c h1
        exact absurd hattr (by simp [ChangeEntry.attr])
      · obtain ⟨v, -, -, -, rfl⟩ := mapper_change_mem _ _ _ _ _ c h1
        exact absurd hattr (by simp [ChangeEntry.attr])
      · obtain ⟨v, -, -, -, rfl⟩ := mapper_change_mem _ _ _ _ _ c h1
        exact absurd hattr (by simp [ChangeEntry.attr])
      · rw [groups_changes_ok_nil_of_none env p inst gl hg hnone] at h1
        simp at h1
      · rw [source_dest_changes_attr p inst c h1] at hattr
        cases hattr
    · rcases hmem c hc with h1 | h1 | h1 | h1 | h1
      · obtain ⟨v, -, -, -, rfl⟩ := mapper_change_mem _ _ _ _ _ c h1
        exact absurd hattr (by simp [ChangeEntry.attr])
      · obtain ⟨v, -, -, -, rfl⟩ := mapper_change_mem _ _ _ _ _ c h1
        exact absurd hattr (by simp [ChangeEntry.attr])
      · obtain ⟨v, -, -, -, rfl⟩ := mapper_change_mem _ _ _ _ _ c h1
        exact absurd hattr (by simp [ChangeEntry.attr])
      · rw [groups_changes_attr env p inst gl hg c h1] at hattr
        cases hattr
      · rw [source_dest_changes_eq_nil p inst (fun w hw => by rw [hnone] at hw; cases hw)] at h1
        simp at h1
  refine ⟨fun v hv hne hterm htype hgrp hsdc => ?_,
    fun v hv hne hebs htype hgrp hsdc => ?_,
    fun v hv hne hebs hterm hgrp hsdc => ?_,
    fun gs sub hdecl hsub hsame hlen hnic hebs hterm htype hsdc => ?_,
    fun v hv hne hebs hterm htype hgrp => ?_⟩
  · rw [hl, diff_mapper_changes,
      mapper_change_eq_singleton "EbsOptimized" [] _ hv hne (by simp),
      mapper_change_eq_nil p.termination_protection "DisableApiTermination" []
        inst.disableApiTermination _ hterm,
      mapper_change_eq_nil p.instance_type "InstanceType" [] inst.instanceType _ htype,
      groups_changes_ok_nil env p inst gl hg hgrp,
      source_dest_changes_eq_nil p inst hsdc]
    simp
  · rw [hl, diff_mapper_changes,
      mapper_change_eq_nil p.ebs_optimized "EbsOptimized" [] inst.ebsOptimized _ hebs,
      mapper_change_eq_singleton "DisableApiTermination" [] _ hv hne (by simp),
      mapper_change_eq_nil p.instance_type "InstanceType" [] inst.instanceType _ htype,
      groups_changes_ok_nil env p inst gl hg hgrp,
      source_dest_changes_eq_nil p inst hsdc]
    simp
  · rw [hl, diff_mapper_changes,
      mapper_change_eq_nil p.ebs_optimized "EbsOptimized" [] inst.ebsOptimized _ hebs,
      mapper_change_eq_nil p.termination_protection "DisableApiTermination" []
        inst.disableApiTermination _ hterm,
      mapper_change_eq_singleton "InstanceType" [] _ hv hne (by simp),
      groups_changes_ok_nil env p inst gl hg hgrp,
      source_dest_changes_eq_nil p inst hsdc]
    simp
  · rw [hl, diff_mapper_changes,
      mapper_change_eq_nil p.ebs_optimized "EbsOptimized" [] inst.ebsOptimized _ hebs,
      mapper_change_eq_nil p.termination_protection "DisableApiTermination" []
        inst.disableApiTermination _ hterm,
      mapper_change_eq_nil p.instance_type "InstanceType" [] inst.instanceType _ htype,
      groups_changes_ok_singleton env p inst gl gs sub hg hdecl hsub hsame hlen hnic,
      source_dest_changes_eq_nil p inst hsdc]
    simp
  · rw [hl, diff_mapper_changes,
      mapper_change_eq_nil p.ebs_optimized "EbsOptimized" [] inst.ebsOptimized _ hebs,
      mapper_change_eq_nil p.termination_protection "DisableApiTermination" []
        inst.disableApiTermination _ hterm,
      mapper_change_eq_nil p.instance_type "InstanceType" [] inst.instanceType _ htype,
      groups_changes_ok_nil env p inst gl hg hgrp,
      source_dest_changes_eq_singleton p inst v hv hne]
    simp

/-- C7 counterexample: a live resource with two network interfaces and a
declaration differing from it only in the security groups produce an
empty change list — not exactly one entry — because the diff engine
skips group modification on multi-interface resources. -/
theorem diff_multi_nic_groups_counterexample :
    declared_groups { security_groups := ["sg-b"], vpc_subnet_id := some "subnet-1" }
        (effective_network_interfaces
          { security_groups := ["sg-b"], vpc_subnet_id := some "subnet-1" }) =
      some ["sg-b"] ∧
    sameSet ["sg-a"] (Env.resolveGroups {} ["sg-b"] (some "subnet-1")) = false ∧
    diff_instance_and_params {}
        { security_groups := ["sg-b"], vpc_subnet_id := some "subnet-1" }
        { instanceId := "i-1", groupSet := ["sg-a"], networkInterfaceCount := 2 } [] =
      .ok [] ∧
    ([] : List ChangeEntry).length ≠ 1 := by
  exact ⟨rfl, by decide, rfl, by decide⟩

/-- C7 witness: the amended minimality theorem applied to a declaration
differing from the live resource only in the instance subtype. -/
theorem diff_minimality_allowlist_witness :
    diff_instance_and_params {} { instance_type := some "t3.large" }
        { instanceId := "i-2", instanceType := "t2.micro" } [] =
      .ok [.instanceType "i-2" "t3.large"] ∧
    [ChangeEntry.instanceType "i-2" "t3.large"] =
      [ChangeEntry.instanceType
        (LiveInst.instanceId { instanceId := "i-2", instanceType := "t2.micro" })
        "t3.large"] := by
  have h := (diff_minimality_allowlist {} { instance_type := some "t3.large" }
    { instanceId := "i-2", instanceType := "t2.micro" }
    [.instanceType "i-2" "t3.large"] rfl).2.2.2.1 "t3.large" rfl (by decide)
    (fun w hw => Option.noConfusion hw) (fun w hw => Option.noConfusion hw)
    (fun gs sub hd hs => Option.noConfusion hd) (fun w hw => Option.noConfusion hw)
  exact ⟨rfl, h⟩

/-- The surviving population of the shrink path: filtering a
permutation of `s` by ids outside the first `n` sorted ids keeps
exactly the last `s.length - n` members. -/
theorem length_filter_survivors (s l : List LiveInst) (n : Nat)
    (hperm : s.Perm l) (hnd : (s.map (fun i => i.instanceId)).Nodup) :
    (l.filter (fun i =>
      !(((s.map (fun j => j.instanceId)).take n).contains i.instanceId))).length =
      s.length - n := by
  rw [← (hperm.filter (fun i =>
    !(((s.map (fun j => j.instanceId)).take n).contains i.instanceId))).length_eq]
  have hsplit := List.take_append_drop n s
  have hnds2 := hnd
  rw [← hsplit, List.map_append, List.nodup_append] at hnds2
  have hfs : List.filter (fun i =>
      !(((s.map (fun j => j.instanceId)).take n).contains i.instanceId)) s =
      List.filter (fun i =>
        !(((s.map (fun j => j.instanceId)).take n).contains i.instanceId))
        (s.take n ++ s.drop n) := by
    rw [hsplit]
  rw [hfs, List.filter_append]
  have hft : List.filter (fun i =>
      !(((s.map (fun j => j.instanceId)).take n).contains i.instanceId))
      (s.take n) = [] := by
    rw [List.filter_eq_nil_iff]
    intro x hx
    have hmem : x.instanceId ∈ (s.map (fun j => j.instanceId)).take n := by
      rw [← List.map_take]
      exact List.mem_map_of_mem _ hx
    simp [hmem]
  have hfd : List.filter (fun i =>
      !(((s.map (fun j => j.instanceId)).take n).contains i.instanceId))
      (s.drop n) = s.drop n := by
    rw [List.filter_eq_self]
    intro x hx
    have hxid : x.instanceId ∈ (s.drop n).map (fun j => j.instanceId) :=
      List.mem_map_of_mem _ hx
    have hnin : x.instanceId ∉ (s.map (fun j => j.instanceId)).take n := by
      rw [← List.map_take]
      intro hcontra
      exact (hnds2.2.2 hcontra) hxid
    simp [hnin]
  rw [hft, hfd, List.nil_append, List.length_drop]

/-- C1: exact-count reconciliation converges.  Shrink (`P > E`): the
matched members are sorted by creation timestamp ascending and exactly
the `P - E` oldest are terminated — their ids are `terminated_ids`,
every terminated member is no younger than every survivor, terminated
ids are absent from the surviving population, and the surviving
population has size `E`.  Grow (`P < E`): the creation request built by
`build_run_instance_spec` has `MinCount = MaxCount = E - P`, and once
the provider creates that many instances the population has size `E`. -/
theorem enforce_count_exact_count_convergence
    (tok : String) (env : Env) (p : Params) (existing fresh : List LiveInst)
    (E : Int) (out : EnforceOutcome)
    (hE : p.exact_count = some E) (hE0 : E ≠ 0) (hEpos : 0 ≤ E)
    (hnd : (existing.map (fun i => i.instanceId)).Nodup)
    (henf : enforce_count tok env p existing fresh = .ok out) :
    ((existing.length : Int) > E →
      out.terminated_ids =
        ((sorted_by_launch_time existing).map (fun i => i.instanceId)).take
          ((existing.length : Int) - E).toNat ∧
      (out.terminated_ids.length : Int) = (existing.length : Int) - E ∧
      (∀ a ∈ (sorted_by_launch_time existing).take ((existing.length : Int) - E).toNat,
        ∀ b ∈ out.population, a.launchTime ≤ b.launchTime) ∧
      (∀ tid ∈ out.terminated_ids, tid ∉ out.population.map (fun i => i.instanceId)) ∧
      (out.population.length : Int) = E) ∧
    ((existing.length : Int) < E → fresh.length = (E - (existing.length : Int)).toNat →
      out.minCount = E - (existing.length : Int) ∧
      out.maxCount = E - (existing.length : Int) ∧
      (out.population.length : Int) = E) := by
  haveI : IsTotal LiveInst launchTimeLe :=
    ⟨fun a b => Nat.le_total a.launchTime b.launchTime⟩
  haveI : IsTrans LiveInst launchTimeLe := ⟨fun a b c => Nat.le_trans⟩
  have hperm : (sorted_by_launch_time existing).Perm existing :=
    List.perm_insertionSort launchTimeLe existing
  have hlen_sorted : (sorted_by_launch_time existing).length = existing.length :=
    hperm.length_eq
  constructor
  · intro hgt
    simp only [enforce_count, hE, bind, Except.bind, pure, Except.pure] at henf
    rw [if_neg (by omega), if_neg (by omega)] at henf
    simp only [Except.ok.injEq] at henf
    subst henf
    have htoTle : ((existing.length : Int) - E).toNat ≤ existing.length := by omega
    refine ⟨rfl, ?_, ?_, ?_, ?_⟩
    · rw [List.length_take, List.length_map, hlen_sorted, Nat.min_eq_left htoTle]
      omega
    · intro a ha b hb
      have hb1 : b ∈ existing := List.mem_of_mem_filter hb
      have hpred := List.of_mem_filter hb
      have hb2 : b ∈ sorted_by_launch_time existing := hperm.symm.subset hb1
      rw [← List.take_append_drop ((existing.length : Int) - E).toNat
        (sorted_by_launch_time existing)] at hb2
      rcases List.mem_append.mp hb2 with hbt | hbd
      · exfalso
        have hmem : b.instanceId ∈
            ((sorted_by_launch_time existing).map (fun i => i.instanceId)).take
              ((existing.length : Int) - E).toNat := by
          rw [← List.map_take]
          exact List.mem_map_of_mem _ hbt
        simp [hmem] at hpred
      · have hsortp2 : List.Sorted launchTimeLe (sorted_by_launch_time existing) :=
          List.sorted_insertionSort launchTimeLe existing
        rw [← List.take_append_drop ((existing.length : Int) - E).toNat
          (sorted_by_launch_time existing)] at hsortp2
        exact (List.pairwise_append.mp hsortp2).2.2 a ha b hbd
    · intro tid htid hmem
      obtain ⟨x, hx, rfl⟩ := List.mem_map.mp hmem
      have hpred := List.of_mem_filter hx
      simp at hpred
      exact hpred htid
    · have hlen := length_filter_survivors (sorted_by_launch_time existing) existing
        ((existing.length : Int) - E).toNat hperm
        (hnd.perm ((hperm.map (fun i => i.instanceId)).symm))
      simp only [] at hlen ⊢
      rw [hlen, hlen_sorted]
      omega
  · intro hlt hfresh
    simp only [enforce_count, hE, bind, Except.bind, pure, Except.pure] at henf
    rw [if_neg (by omega), if_pos (by omega)] at henf
    cases hspec : build_run_instance_spec tok env p (existing.length : Int) with
    | error e =>
      simp [hspec] at henf
    | ok spec =>
      simp only [hspec, Except.ok.injEq] at henf
      subst henf
      obtain ⟨-, hmin, hmax⟩ :=
        build_run_instance_spec_ok tok env p (existing.length : Int) spec hspec
      have hcount : run_instance_count p (existing.length : Int) =
          E - (existing.length : Int) := by
        simp [run_instance_count, hE, hE0]
      refine ⟨?_, ?_, ?_⟩
      · show spec.MinCount = E - (existing.length : Int)
        rw [hmin, hcount]
      · show spec.MaxCount = E - (existing.length : Int)
        rw [hmax, hcount]
      · show (((existing ++ fresh).length : Nat) : Int) = E
        simp only [List.length_append]
        omega

/-- C1 witness: the convergence theorem applied to a shrink from two
members to one (the older member is terminated) and to a grow from one
member to three (a creation request for two instances). -/
theorem enforce_count_exact_count_convergence_witness :
    (({ terminated_ids := ["i-old"], instance_ids := ["i-old", "i-new"],
        population := [{ instanceId := "i-new", launchTime := 20 }] } :
          EnforceOutcome).population.length : Int) = 1 ∧
    ({ instance_ids := ["i-1", "i-2", "i-3"],
       population := [{ instanceId := "i-1", launchTime := 5 },
                      { instanceId := "i-2", launchTime := 30 },
                      { instanceId := "i-3", launchTime := 31 }],
       minCount := 2, maxCount := 2 } : EnforceOutcome).minCount = 2 := by
  constructor
  · have h1 := (enforce_count_exact_count_convergence "tok" {}
      { exact_count := some 1, image_id := some "ami-1", instance_type := some "t2.micro",
        vpc_subnet_id := some "subnet-a" }
      [{ instanceId := "i-new", launchTime := 20 },
       { instanceId := "i-old", launchTime := 10 }] [] 1
      { terminated_ids := ["i-old"], instance_ids := ["i-old", "i-new"],
        population := [{ instanceId := "i-new", launchTime := 20 }] }
      rfl (by decide) (by decide) (by decide) rfl).1 (by decide)
    exact h1.2.2.2.2
  · have h2 := (enforce_count_exact_count_convergence "tok" {}
      { exact_count := some 3, image_id := some "ami-1", instance_type := some "t2.micro",
        vpc_subnet_id := some "subnet-a" }
      [{ instanceId := "i-1", launchTime := 5 }]
      [{ instanceId := "i-2", launchTime := 30 },
       { instanceId := "i-3", launchTime := 31 }] 3
      { instance_ids := ["i-1", "i-2", "i-3"],
        population := [{ instanceId := "i-1", launchTime := 5 },
                       { instanceId := "i-2", launchTime := 30 },
                       { instanceId := "i-3", launchTime := 31 }],
        minCount := 2, maxCount := 2 }
      rfl (by decide) (by decide) (by decide) rfl).2 (by decide) (by decide)
    set_option linter.unnecessarySimpa false in
    simpa using h2.1
